import Mathlib

/-!
Verification of the Tesla-MCP multi-tenant session and OAuth-relay subsystem.

The definitions below are a shallow embedding of the TypeScript source:
`sessionManager.ts` (session store), the per-user Tesla service
(`refreshAccessToken`, `isAuthenticated`), and the HTTP server's OAuth 2.1
relay endpoints, `/mcp` transport endpoints, `/sse` resolution and the
per-session vehicle cache.  JavaScript `Map`s become association lists,
optional / possibly-`undefined` fields become `Option`, JS truthiness of
strings ("" is falsy) and numbers (0 is falsy) is modelled explicitly, and
randomness (`crypto.randomBytes`, fresh UUIDs) is passed in as parameters.
`Date.now()` is an explicit `now : Nat` parameter (epoch milliseconds).
-/

/-! ### Association-list maps (embedding of JS `Map`) -/

def alookup {β : Type} (m : List (String × β)) (k : String) : Option β :=
  match m with
  | [] => none
  | (k', v) :: rest => if k' = k then some v else alookup rest k

def ainsert {β : Type} (m : List (String × β)) (k : String) (v : β) : List (String × β) :=
  match m with
  | [] => [(k, v)]
  | (k', v') :: rest => if k' = k then (k, v) :: rest else (k', v') :: ainsert rest k v

def aerase {β : Type} (m : List (String × β)) (k : String) : List (String × β) :=
  match m with
  | [] => []
  | (k', v') :: rest => if k' = k then aerase rest k else (k', v') :: aerase rest k

/-! ### JS truthiness helpers -/

/-- JS truthiness of a `string | undefined` value: `undefined` and `""` are falsy. -/
def strTruthy (o : Option String) : Bool :=
  match o with
  | none => false
  | some s => s ≠ ""

/-- JS truthiness of a `number | undefined` value: `undefined` and `0` are falsy. -/
def numTruthy (o : Option Nat) : Bool :=
  match o with
  | none => false
  | some n => n ≠ 0

/-! ### base64url (no padding), as produced by `Buffer.toString('base64url')`
    and `crypto.Hash.digest('base64url')` -/

def b64Alphabet : List Char :=
  "ABCDEFGHIJKLMNOPQRSTUVWXYZabcdefghijklmnopqrstuvwxyz0123456789-_".toList

def b64Char (n : Nat) : Char := b64Alphabet.getD n 'A'

/-- base64url-encode a byte list, no padding. -/
def b64urlEncode : List Nat → List Char
  | [] => []
  | [b1] => [b64Char (b1 >>> 2), b64Char ((b1 % 4) <<< 4)]
  | [b1, b2] =>
      [b64Char (b1 >>> 2), b64Char (((b1 % 4) <<< 4) ||| (b2 >>> 4)),
       b64Char ((b2 % 16) <<< 2)]
  | b1 :: b2 :: b3 :: rest =>
      b64Char (b1 >>> 2) :: b64Char (((b1 % 4) <<< 4) ||| (b2 >>> 4)) ::
      b64Char (((b2 % 16) <<< 2) ||| (b3 >>> 6)) :: b64Char (b3 % 64) ::
      b64urlEncode rest

def b64url (bs : List Nat) : String := String.mk (b64urlEncode bs)

/-! ### SHA-256 (embedding of `crypto.createHash('sha256')`), FIPS 180-4,
    32-bit words as `Nat` reduced mod `2 ^ 32` -/

def M32 : Nat := 4294967296

def add32 (a b : Nat) : Nat := (a + b) % M32

def rotr32 (n x : Nat) : Nat := ((x >>> n) ||| (x <<< (32 - n))) % M32

def bigSigma0 (x : Nat) : Nat := rotr32 2 x ^^^ rotr32 13 x ^^^ rotr32 22 x

def bigSigma1 (x : Nat) : Nat := rotr32 6 x ^^^ rotr32 11 x ^^^ rotr32 25 x

def smallSigma0 (x : Nat) : Nat := rotr32 7 x ^^^ rotr32 18 x ^^^ (x >>> 3)

def smallSigma1 (x : Nat) : Nat := rotr32 17 x ^^^ rotr32 19 x ^^^ (x >>> 10)

def chFn (x y z : Nat) : Nat := (x &&& y) ^^^ ((x ^^^ (M32 - 1)) &&& z)

def majFn (x y z : Nat) : Nat := (x &&& y) ^^^ (x &&& z) ^^^ (y &&& z)

def sha256K : List Nat :=
  [1116352408, 1899447441, 3049323471, 3921009573, 961987163, 1508970993,
   2453635748, 2870763221, 3624381080, 310598401, 607225278, 1426881987,
   1925078388, 2162078206, 2614888103, 3248222580, 3835390401, 4022224774,
   264347078, 604807628, 770255983, 1249150122, 1555081692, 1996064986,
   2554220882, 2821834349, 2952996808, 3210313671, 3336571891, 3584528711,
   113926993, 338241895, 666307205, 773529912, 1294757372, 1396182291,
   1695183700, 1986661051, 2177026350, 2456956037, 2730485921, 2820302411,
   3259730800, 3345764771, 3516065817, 3600352804, 4094571909, 275423344,
   430227734, 506948616, 659060556, 883997877, 958139571, 1322822218,
   1537002063, 1747873779, 1955562222, 2024104815, 2227730452, 2361852424,
   2428436474, 2756734187, 3204031479, 3329325298]

def sha256H0 : List Nat :=
  [1779033703, 3144134277, 1013904242, 2773480762,
   1359893119, 2600822924, 528734635, 1541459225]

/-- SHA-256 message padding: append 0x80, zeros, then the 64-bit big-endian bit length. -/
def sha256Pad (ms : List Nat) : List Nat :=
  let L := ms.length
  let zeros := (64 + 56 - (L + 1) % 64) % 64
  let bitLen := L * 8
  ms ++ [0x80] ++ List.replicate zeros 0 ++
    [(bitLen >>> 56) % 256, (bitLen >>> 48) % 256, (bitLen >>> 40) % 256, (bitLen >>> 32) % 256,
     (bitLen >>> 24) % 256, (bitLen >>> 16) % 256, (bitLen >>> 8) % 256, bitLen % 256]

/-- Big-endian 4-byte groups to 32-bit words. -/
def bytesToWords : List Nat → List Nat
  | b1 :: b2 :: b3 :: b4 :: rest =>
      ((b1 <<< 24) ||| (b2 <<< 16) ||| (b3 <<< 8) ||| b4) :: bytesToWords rest
  | _ => []

/-- Extend a 16-word block to the 64-word message schedule. -/
def sha256Schedule (block : List Nat) : List Nat :=
  (List.range 48).foldl
    (fun w i =>
      let t := i + 16
      w ++ [add32 (add32 (smallSigma1 (w.getD (t - 2) 0)) (w.getD (t - 7) 0))
              (add32 (smallSigma0 (w.getD (t - 15) 0)) (w.getD (t - 16) 0))])
    block

/-- One round of the SHA-256 compression function. -/
def sha256Round (st : List Nat) (kw : Nat × Nat) : List Nat :=
  match st with
  | [a, b, c, d, e, f, g, h] =>
      let t1 := add32 (add32 (add32 h (bigSigma1 e)) (add32 (chFn e f g) kw.1)) kw.2
      let t2 := add32 (bigSigma0 a) (majFn a b c)
      [add32 t1 t2, a, b, c, add32 d t1, e, f, g]
  | other => other

/-- Process one 16-word block, updating the running hash. -/
def sha256Block (hsh : List Nat) (block : List Nat) : List Nat :=
  let w := sha256Schedule block
  let st := (sha256K.zip w).foldl sha256Round hsh
  (hsh.zip st).map (fun p => add32 p.1 p.2)

/-- Fold the compression function over consecutive 16-word blocks. -/
def sha256Blocks (hsh : List Nat) : List Nat → List Nat
  | w1 :: w2 :: w3 :: w4 :: w5 :: w6 :: w7 :: w8 ::
    w9 :: w10 :: w11 :: w12 :: w13 :: w14 :: w15 :: w16 :: rest =>
      sha256Blocks
        (sha256Block hsh [w1, w2, w3, w4, w5, w6, w7, w8, w9, w10, w11, w12, w13, w14, w15, w16])
        rest
  | _ => hsh

/-- SHA-256 of a byte list, as a byte list (32 bytes). -/
def sha256Bytes (ms : List Nat) : List Nat :=
  let hsh := sha256Blocks sha256H0 (bytesToWords (sha256Pad ms))
  hsh.flatMap (fun w => [(w >>> 24) % 256, (w >>> 16) % 256, (w >>> 8) % 256, w % 256])

/-- UTF-8 bytes of a string; our inputs are ASCII (base64url alphabet), for
    which the code point is the byte. -/
def strBytes (s : String) : List Nat := s.toList.map Char.toNat

/-- Embedding of `crypto.createHash('sha256').update(s).digest('base64url')`. -/
def sha256B64url (s : String) : String := b64url (sha256Bytes (strBytes s))

/-! ### Session store (embedding of `sessionManager.ts`) -/

/-- `UserSession` from `sessionManager.ts`; optional TS fields are `Option`. -/
structure Session where
  sessionId : String
  clientId : Option String := none
  clientSecret : Option String := none
  accessToken : Option String := none
  refreshToken : Option String := none
  tokenExpiration : Option Nat := none
  state : Option String := none
  codeVerifier : Option String := none
  createdAt : Nat
  lastActivity : Nat
  oauthClientId : Option String := none
  oauthRedirectUri : Option String := none
  oauthClientState : Option String := none
  oauthCodeChallenge : Option String := none
  oauthCodeChallengeMethod : Option String := none
deriving DecidableEq, Repr

/-- A `Partial<UserSession>` argument to `updateSession`: an outer `none`
    means the property is absent from the patch object; `some v` means the
    property is present with value `v` (possibly `undefined`, i.e. inner
    `none`, which clears the field — JS `Object.assign` semantics). -/
structure SessionPatch where
  clientId : Option (Option String) := none
  clientSecret : Option (Option String) := none
  accessToken : Option (Option String) := none
  refreshToken : Option (Option String) := none
  tokenExpiration : Option (Option Nat) := none
  state : Option (Option String) := none
  codeVerifier : Option (Option String) := none
  oauthClientId : Option (Option String) := none
  oauthRedirectUri : Option (Option String) := none
  oauthClientState : Option (Option String) := none
  oauthCodeChallenge : Option (Option String) := none
  oauthCodeChallengeMethod : Option (Option String) := none
deriving Repr

/-- `Object.assign(session, data, { lastActivity: Date.now() })`. -/
def applyPatch (s : Session) (p : SessionPatch) (now : Nat) : Session :=
  { s with
    clientId := p.clientId.getD s.clientId
    clientSecret := p.clientSecret.getD s.clientSecret
    accessToken := p.accessToken.getD s.accessToken
    refreshToken := p.refreshToken.getD s.refreshToken
    tokenExpiration := p.tokenExpiration.getD s.tokenExpiration
    state := p.state.getD s.state
    codeVerifier := p.codeVerifier.getD s.codeVerifier
    oauthClientId := p.oauthClientId.getD s.oauthClientId
    oauthRedirectUri := p.oauthRedirectUri.getD s.oauthRedirectUri
    oauthClientState := p.oauthClientState.getD s.oauthClientState
    oauthCodeChallenge := p.oauthCodeChallenge.getD s.oauthCodeChallenge
    oauthCodeChallengeMethod := p.oauthCodeChallengeMethod.getD s.oauthCodeChallengeMethod
    lastActivity := now }

abbrev SessionStore : Type := List (String × Session)

/-- `createSession()`: the random 32-byte hex id is passed in as `freshSid`. -/
def createSession (store : SessionStore) (freshSid : String) (now : Nat) :
    Session × SessionStore :=
  let s : Session := { sessionId := freshSid, createdAt := now, lastActivity := now }
  (s, ainsert store freshSid s)

/-- `getSession(id)`: touches `lastActivity` on a successful lookup. -/
def getSession (store : SessionStore) (sid : String) (now : Nat) :
    Option Session × SessionStore :=
  match alookup store sid with
  | none => (none, store)
  | some s =>
      let s' := { s with lastActivity := now }
      (some s', ainsert store sid s')

/-- `updateSession(id, data)`: merge the patch, refresh `lastActivity`;
    returns `false` and leaves the store alone if the session is absent. -/
def updateSession (store : SessionStore) (sid : String) (p : SessionPatch) (now : Nat) :
    Bool × SessionStore :=
  match alookup store sid with
  | none => (false, store)
  | some s => (true, ainsert store sid (applyPatch s p now))

/-- `hasValidTokens(id)`: reads `sessions.get` directly (no `lastActivity`
    touch).  Note the JS truthiness guards: `!session.accessToken` is true
    for `""`, and `session.tokenExpiration && now >= session.tokenExpiration`
    skips the expiry comparison when `tokenExpiration` is `0`. -/
def hasValidTokens (store : SessionStore) (sid : String) (now : Nat) : Bool :=
  match alookup store sid with
  | none => false
  | some s =>
      if !(strTruthy s.accessToken) then false
      else if numTruthy s.tokenExpiration && (s.tokenExpiration.getD 0 ≤ now) then false
      else true

/-- `generateOAuthState(id)`: the 16 random bytes are passed in as `rand`. -/
def generateOAuthState (store : SessionStore) (sid : String) (rand : List Nat) (now : Nat) :
    String × SessionStore :=
  let st := b64url rand
  (st, (updateSession store sid { state := some (some st) } now).2)

/-- `generatePKCE(id)`: the 32 random verifier bytes are passed in as `rand`. -/
def generatePKCE (store : SessionStore) (sid : String) (rand : List Nat) (now : Nat) :
    (String × String) × SessionStore :=
  let verifier := b64url rand
  let challenge := sha256B64url verifier
  ((verifier, challenge), (updateSession store sid { codeVerifier := some (some verifier) } now).2)

/-- `validateState(id, state)`: `this.sessions.get(sessionId)?.state === state`;
    a pure read — the source performs no mutation here (the stored state is
    not cleared on success). -/
def validateState (store : SessionStore) (sid : String) (st : String) : Bool :=
  match alookup store sid with
  | none => false
  | some s => s.state = some st

/-- `getSessionByToken(token)`: connection-token indirection, then `getSession`. -/
def getSessionByToken (tmap : List (String × String)) (store : SessionStore)
    (tok : String) (now : Nat) : Option Session × SessionStore :=
  match alookup tmap tok with
  | none => (none, store)
  | some sid => getSession store sid now

/-! ### Per-user Tesla service (embedding of `userTeslaService.ts`) -/

/-- Tesla token-endpoint response fields used by `refreshAccessToken`. -/
structure TokenResp where
  access_token : String
  expires_in : Nat
  refresh_token : Option String
deriving DecidableEq, Repr

/-- `getCredentials()`: `none` models the thrown
    `'Tesla app credentials not configured...'` error. -/
def getCredentials (store : SessionStore) (sid : String) (now : Nat) :
    Option (String × String) × SessionStore :=
  let r := getSession store sid now
  match r.1 with
  | none => (none, r.2)
  | some s =>
      if strTruthy s.clientId && strTruthy s.clientSecret then
        (some (s.clientId.getD "", s.clientSecret.getD ""), r.2)
      else (none, r.2)

/-- `refreshAccessToken()`: the upstream `axios.post` outcome is passed in as
    `exch`.  Returns the store after the call together with `some errorMessage`
    when the source throws, `none` on success.  Only `updateSession` (success
    path) writes token fields; `getSession` lookups bump `lastActivity`. -/
def refreshAccessToken (store : SessionStore) (sid : String) (now : Nat)
    (exch : Except String TokenResp) : SessionStore × Option String :=
  let r := getSession store sid now
  match r.1 with
  | none => (r.2, some "No refresh token available. Please authenticate first.")
  | some s =>
      if !(strTruthy s.refreshToken) then
        (r.2, some "No refresh token available. Please authenticate first.")
      else
        let c := getCredentials r.2 sid now
        match c.1 with
        | none => (c.2, some "Tesla app credentials not configured. Please set up your credentials first.")
        | some _ =>
            match exch with
            | .error msg => (c.2, some ("Failed to refresh token: " ++ msg))
            | .ok resp =>
                let patch : SessionPatch :=
                  { accessToken := some (some resp.access_token)
                    tokenExpiration := some (some (now + resp.expires_in * 1000))
                    refreshToken :=
                      if strTruthy resp.refresh_token then some resp.refresh_token else none }
                ((updateSession c.2 sid patch now).2, none)

/-- `isAuthenticated()`: `!!(session?.refreshToken && session?.clientId &&
    session?.clientSecret)`.  The source reads the session via `getSession`;
    the resulting `lastActivity` bump is returned alongside. -/
def isAuthenticated (store : SessionStore) (sid : String) (now : Nat) :
    Bool × SessionStore :=
  let r := getSession store sid now
  match r.1 with
  | none => (false, r.2)
  | some s => (strTruthy s.refreshToken && strTruthy s.clientId && strTruthy s.clientSecret, r.2)

/-! ### OAuth 2.1 relay server stores and endpoints (embedding of the
    Express handlers in the HTTP server source) -/

/-- A dynamically registered OAuth client (`oauthClients` map values). -/
structure OAuthClient where
  client_id : String
  client_secret : String
  redirect_uris : List String
deriving DecidableEq, Repr

/-- An authorization-code record (`oauthAuthCodes` map values). -/
structure AuthCode where
  userSessionId : String
  clientId : String
  redirectUri : String
  codeChallenge : String
  codeChallengeMethod : String
  expiresAt : Nat
deriving DecidableEq, Repr

/-- An MCP bearer-token record (`mcpBearerTokens` map values). -/
structure BearerTok where
  userSessionId : String
  expiresAt : Nat
deriving DecidableEq, Repr

/-- An MCP refresh-token record (`mcpRefreshTokens` map values). -/
structure RefreshTok where
  userSessionId : String
  clientId : String
deriving DecidableEq, Repr

/-- `auth.startsWith('Bearer ')`, expressed over the character list so that
    it evaluates by kernel reduction. -/
def isBearerHeader (a : String) : Bool := a.data.take 7 = "Bearer ".data

/-- `auth.slice(7)`: the token after the `Bearer ` scheme prefix. -/
def bearerValue (a : String) : String := String.mk (a.data.drop 7)

/-- `authenticateMcpBearer(req)`: validates the `Authorization` header
    against `mcpBearerTokens`, deleting an expired record; returns the
    `userSessionId` or `none`, with the (possibly pruned) token map. -/
def authenticateMcpBearer (btoks : List (String × BearerTok))
    (authHeader : Option String) (now : Nat) :
    Option String × List (String × BearerTok) :=
  match authHeader with
  | none => (none, btoks)
  | some a =>
      if !(isBearerHeader a) then (none, btoks)
      else
        let tok := bearerValue a
        match alookup btoks tok with
        | none => (none, btoks)
        | some stored =>
            if stored.expiresAt < now then (none, aerase btoks tok)
            else (some stored.userSessionId, btoks)

/-- Query parameters of `GET /oauth/authorize` (each possibly absent). -/
structure AuthorizeReq where
  client_id : Option String
  redirect_uri : Option String
  state : Option String
  code_challenge : Option String
  code_challenge_method : Option String
  response_type : Option String
deriving DecidableEq, Repr

/-- Outcome of `GET /oauth/authorize`. -/
inductive AuthorizeResult where
  | err (status : Nat) (error : String)
  | redirect (url : String)
deriving DecidableEq, Repr

/-- `client.redirect_uris.includes(redirect_uri)` with a possibly-absent
    `redirect_uri` (absent is never a member). -/
def redirectAllowed (client : OAuthClient) (ru : Option String) : Bool :=
  match ru with
  | some r => client.redirect_uris.contains r
  | none => false

/-- `app.get('/oauth/authorize')`: validation order is `response_type`,
    then client lookup, then exact `redirect_uri` membership; only then is a
    session created (with server Tesla credentials injected when configured)
    and the external client's OAuth parameters stashed on it. -/
def oauthAuthorize (clients : List (String × OAuthClient)) (store : SessionStore)
    (req : AuthorizeReq) (freshSid : String) (serverCreds : Option (String × String))
    (baseUrl : String) (now : Nat) : AuthorizeResult × SessionStore :=
  let ccm := match req.code_challenge_method with
    | some m => if m = "" then "S256" else m
    | none => "S256"
  if req.response_type ≠ some "code" then (.err 400 "unsupported_response_type", store)
  else
    match req.client_id.bind (alookup clients) with
    | none => (.err 400 "invalid_client", store)
    | some client =>
        if !(redirectAllowed client req.redirect_uri) then
          (.err 400 "invalid_redirect_uri", store)
        else
          let c := createSession store freshSid now
          let store2 := match serverCreds with
            | some creds =>
                (updateSession c.2 c.1.sessionId
                  { clientId := some (some creds.1), clientSecret := some (some creds.2) } now).2
            | none => c.2
          let store3 := (updateSession store2 c.1.sessionId
            { oauthClientId := some req.client_id
              oauthRedirectUri := some req.redirect_uri
              oauthClientState := some req.state
              oauthCodeChallenge := some req.code_challenge
              oauthCodeChallengeMethod := some (some ccm) } now).2
          (.redirect (baseUrl ++ "/auth/login?session=" ++ c.1.sessionId), store3)

/-- Body fields of `POST /oauth/token` (each possibly absent). -/
structure TokenReq where
  grant_type : Option String
  code : Option String
  redirect_uri : Option String
  client_id : Option String
  code_verifier : Option String
  refresh_token : Option String
deriving DecidableEq, Repr

/-- Success body of `POST /oauth/token`. -/
structure TokenSuccess where
  access_token : String
  expires_in : Nat
  refresh_token : Option String
deriving DecidableEq, Repr

/-- Outcome of `POST /oauth/token`. -/
inductive TokenResult where
  | ok (body : TokenSuccess)
  | err (status : Nat) (error : String)
deriving DecidableEq, Repr

/-- The three token-endpoint stores. -/
structure TokenState where
  authCodes : List (String × AuthCode)
  bearerToks : List (String × BearerTok)
  refreshToks : List (String × RefreshTok)
deriving DecidableEq, Repr

/-- `oauthAuthCodes.delete(code)` — a no-op when `code` is absent. -/
def deleteCode (codes : List (String × AuthCode)) (code : Option String) :
    List (String × AuthCode) :=
  match code with
  | some c => aerase codes c
  | none => codes

/-- `app.post('/oauth/token')`: authorization-code and refresh-token grants.
    The randomly generated tokens are passed in as `freshAccess` /
    `freshRefresh`.  Note the source deletes the code record only in the
    absent/expired branch and in the success branch — not on
    `client_id`/`redirect_uri` mismatch or PKCE failure. -/
def oauthToken (st : TokenState) (req : TokenReq) (now : Nat)
    (freshAccess freshRefresh : String) : TokenResult × TokenState :=
  if req.grant_type = some "authorization_code" then
    match req.code.bind (alookup st.authCodes) with
    | none =>
        (.err 400 "invalid_grant", { st with authCodes := deleteCode st.authCodes req.code })
    | some authCode =>
        if authCode.expiresAt < now then
          (.err 400 "invalid_grant", { st with authCodes := deleteCode st.authCodes req.code })
        else if some authCode.clientId ≠ req.client_id ∨ some authCode.redirectUri ≠ req.redirect_uri then
          (.err 400 "invalid_grant", st)
        else if authCode.codeChallenge ≠ "" ∧
                sha256B64url (req.code_verifier.getD "") ≠ authCode.codeChallenge then
          (.err 400 "invalid_grant", st)
        else
          let btok : BearerTok :=
            { userSessionId := authCode.userSessionId, expiresAt := now + 3600 * 1000 }
          let rtok : RefreshTok :=
            { userSessionId := authCode.userSessionId, clientId := authCode.clientId }
          (.ok { access_token := freshAccess, expires_in := 3600,
                 refresh_token := some freshRefresh },
           { authCodes := deleteCode st.authCodes req.code
             bearerToks := ainsert st.bearerToks freshAccess btok
             refreshToks := ainsert st.refreshToks freshRefresh rtok })
  else if req.grant_type = some "refresh_token" then
    match req.refresh_token.bind (alookup st.refreshToks) with
    | none => (.err 400 "invalid_grant", st)
    | some stored =>
        let btok : BearerTok :=
          { userSessionId := stored.userSessionId, expiresAt := now + 3600 * 1000 }
        (.ok { access_token := freshAccess, expires_in := 3600, refresh_token := none },
         { st with bearerToks := ainsert st.bearerToks freshAccess btok })
  else (.err 400 "unsupported_grant_type", st)

/-! ### `/mcp` Streamable-HTTP endpoints -/

/-- Observable outcome of an `/mcp` handler: the HTTP status set by the
    handler itself (`none` when the request is delegated to a transport's
    `handleRequest`), the `WWW-Authenticate` header if any, and whether any
    transport / protocol handler was created, used, or closed. -/
structure McpResult where
  status : Option Nat
  wwwAuth : Option String
  touched : Bool
deriving DecidableEq, Repr

/-- The `mcpHttpTransports` table, with each entry abstracted to the
    `userSessionId` its transport+server pair is bound to. -/
abbrev TransportTable : Type := List (String × String)

/-- The `WWW-Authenticate` value sent on 401 rejections. -/
def wwwAuthHeader (baseUrl : String) : String :=
  "Bearer resource_metadata=\x22" ++ baseUrl ++ "/.well-known/oauth-protected-resource\x22"

/-- `app.post('/mcp')`: bearer check, then route by `mcp-session-id`
    (truthy and known → delegate; falsy → initialize a new transport
    registered under the SDK-generated `freshTid`; otherwise 400). -/
def mcpPost (btoks : List (String × BearerTok)) (transports : TransportTable)
    (authHeader mcpSessionId : Option String) (baseUrl : String) (now : Nat)
    (freshTid : String) : McpResult × List (String × BearerTok) × TransportTable :=
  let a := authenticateMcpBearer btoks authHeader now
  match a.1 with
  | none =>
      ({ status := some 401, wwwAuth := some (wwwAuthHeader baseUrl), touched := false },
       a.2, transports)
  | some usid =>
      if strTruthy mcpSessionId && (alookup transports (mcpSessionId.getD "")).isSome then
        ({ status := none, wwwAuth := none, touched := true }, a.2, transports)
      else if !(strTruthy mcpSessionId) then
        ({ status := none, wwwAuth := none, touched := true }, a.2,
         ainsert transports freshTid usid)
      else
        ({ status := some 400, wwwAuth := none, touched := false }, a.2, transports)

/-- `app.get('/mcp')`: bearer check, then the `mcp-session-id` must name a
    live transport (else 400). -/
def mcpGet (btoks : List (String × BearerTok)) (transports : TransportTable)
    (authHeader mcpSessionId : Option String) (baseUrl : String) (now : Nat) :
    McpResult × List (String × BearerTok) × TransportTable :=
  let a := authenticateMcpBearer btoks authHeader now
  match a.1 with
  | none =>
      ({ status := some 401, wwwAuth := some (wwwAuthHeader baseUrl), touched := false },
       a.2, transports)
  | some _ =>
      if !(strTruthy mcpSessionId) || !(alookup transports (mcpSessionId.getD "")).isSome then
        ({ status := some 400, wwwAuth := none, touched := false }, a.2, transports)
      else
        ({ status := none, wwwAuth := none, touched := true }, a.2, transports)

/-- `app.delete('/mcp')`: the source performs no bearer check here — it
    reads only the `mcp-session-id` header, closes and deregisters the named
    transport when present, and always responds 200.  The `authHeader`
    parameter is carried to mirror the request shape; the handler never
    reads it. -/
def mcpDelete (transports : TransportTable) (_authHeader mcpSessionId : Option String) :
    McpResult × TransportTable :=
  if strTruthy mcpSessionId && (alookup transports (mcpSessionId.getD "")).isSome then
    ({ status := some 200, wwwAuth := none, touched := true },
     aerase transports (mcpSessionId.getD ""))
  else
    ({ status := some 200, wwwAuth := none, touched := false }, transports)

/-! ### `/sse` legacy transport -/

/-- Session resolution of `app.get('/sse')`: connection token first (reuse
    the mapped session if live, else create), then the `session` query
    parameter (if it resolves), else create a fresh session. -/
def sseResolve (store : SessionStore) (tmap : List (String × String))
    (token sessionParam : Option String) (freshSid : String) (now : Nat) :
    String × SessionStore :=
  if strTruthy token then
    let r := getSessionByToken tmap store (token.getD "") now
    match r.1 with
    | some s => (s.sessionId, r.2)
    | none =>
        let c := createSession r.2 freshSid now
        (c.1.sessionId, c.2)
  else if strTruthy sessionParam then
    let r := getSession store (sessionParam.getD "") now
    match r.1 with
    | some _ => (sessionParam.getD "", r.2)
    | none =>
        let c := createSession r.2 freshSid now
        (c.1.sessionId, c.2)
  else
    let c := createSession store freshSid now
    (c.1.sessionId, c.2)

/-- The whole `/sse` connect: resolve the user session, then register the
    SDK-generated transport id in `activeTransports` (each entry abstracted
    to the bound user session id). -/
def sseConnect (store : SessionStore) (tmap : List (String × String))
    (transports : List (String × String)) (token sessionParam : Option String)
    (freshSid transportSid : String) (now : Nat) :
    String × SessionStore × List (String × String) :=
  let r := sseResolve store tmap token sessionParam freshSid now
  (r.1, r.2, ainsert transports transportSid r.1)

/-- The `res.on('close', ...)` handler of `/sse`: deletes only the
    transport-table entry; the session store is not consulted. -/
def sseClose (transports : List (String × String)) (store : SessionStore)
    (transportSid : String) : List (String × String) × SessionStore :=
  (aerase transports transportSid, store)

/-! ### Vehicle cache -/

/-- `Vehicle` (fields used by the server). -/
structure Vehicle where
  id : String
  vin : String
  display_name : String
  state : String
  vehicle_id : Nat
deriving DecidableEq, Repr

/-- A `vehiclesCache` entry. -/
structure VCacheEntry where
  vehicles : List Vehicle
  lastFetch : Nat
deriving DecidableEq, Repr

def CACHE_TTL : Nat := 60000

/-- `(now - cache.lastFetch) < CACHE_TTL` guarded by `cache` being present
    (JS `&&`); a clock that ran backwards still counts as fresh, as in JS
    where the negative difference is below the TTL. -/
def cacheFresh (cache : Option VCacheEntry) (now : Nat) : Bool :=
  match cache with
  | some c => decide (now - c.lastFetch < CACHE_TTL)
  | none => false

/-- `getVehiclesForSession(sessionId, forceRefresh)`: the upstream
    `teslaService.getVehicles()` outcome is passed in as `fetch`.  Returns
    the vehicle list, the updated cache, and whether an upstream fetch was
    attempted.  (`isAuthenticated`'s `lastActivity` bump is not propagated;
    it affects no field this function reads.) -/
def getVehiclesForSession (store : SessionStore)
    (vcache : List (String × VCacheEntry)) (sid : String) (forceRefresh : Bool)
    (now : Nat) (fetch : Except Unit (List Vehicle)) :
    List Vehicle × List (String × VCacheEntry) × Bool :=
  let cache := alookup vcache sid
  if !forceRefresh && cacheFresh cache now then
    ((cache.map (fun c => c.vehicles)).getD [], vcache, false)
  else if !(isAuthenticated store sid now).1 then
    ([], vcache, false)
  else
    match fetch with
    | .ok vehicles => (vehicles, ainsert vcache sid ⟨vehicles, now⟩, true)
    | .error _ => ((cache.map (fun c => c.vehicles)).getD [], vcache, true)

/-! ### Concrete fixtures for counterexamples and witnesses -/

/-- A bare session, as `createSession` makes at time 0. -/
def fxSession (sid : String) : Session :=
  { sessionId := sid, createdAt := 0, lastActivity := 0 }

/-- A session holding an access token with `tokenExpiration` literally `0`. -/
def c5x : Session :=
  { sessionId := "s", accessToken := some "tok", tokenExpiration := some 0,
    createdAt := 0, lastActivity := 0 }

def c2ac : AuthCode :=
  { userSessionId := "u", clientId := "cl", redirectUri := "https://cb/x",
    codeChallenge := "", codeChallengeMethod := "S256", expiresAt := 1000 }

def c2st : TokenState := { authCodes := [("c1", c2ac)], bearerToks := [], refreshToks := [] }

/-- Token request for code `c1`, parameterised on the presented `client_id`. -/
def c2req (cid : Option String) : TokenReq :=
  { grant_type := some "authorization_code", code := some "c1",
    redirect_uri := some "https://cb/x", client_id := cid,
    code_verifier := none, refresh_token := none }

def c3rand : List Nat := List.range 32

def c3v : String := b64url c3rand

def c3ch : String := sha256B64url c3v

def c3ac : AuthCode :=
  { userSessionId := "u", clientId := "cl", redirectUri := "https://cb",
    codeChallenge := c3ch, codeChallengeMethod := "S256", expiresAt := 99 }

def c3st : TokenState := { authCodes := [("code1", c3ac)], bearerToks := [], refreshToks := [] }

/-- Token request for code `code1`, parameterised on the presented verifier. -/
def c3req (v : String) : TokenReq :=
  { grant_type := some "authorization_code", code := some "code1",
    redirect_uri := some "https://cb", client_id := some "cl",
    code_verifier := some v, refresh_token := none }

def c4client : OAuthClient :=
  { client_id := "cid", client_secret := "sec", redirect_uris := ["https://app/cb"] }

def c4clients : List (String × OAuthClient) := [("cid", c4client)]

/-- Authorize request for client `cid`, parameterised on the `redirect_uri`. -/
def c4req (ru : Option String) : AuthorizeReq :=
  { client_id := some "cid", redirect_uri := ru, state := some "xyz",
    code_challenge := some "CH", code_challenge_method := some "S256",
    response_type := some "code" }

/-- An authenticated session (credentials and tokens present). -/
def c9s : Session :=
  { sessionId := "s", clientId := some "ci", clientSecret := some "cs",
    accessToken := some "oldA", refreshToken := some "rt", tokenExpiration := some 11,
    createdAt := 0, lastActivity := 0 }

def c9store : SessionStore := [("s", c9s)]

def c10st : TokenState :=
  { authCodes := [], bearerToks := [],
    refreshToks := [("R1", { userSessionId := "u9", clientId := "origCl" })] }

/-- Refresh-grant request for token `R1`, parameterised on `client_id`. -/
def c10req (cid : Option String) : TokenReq :=
  { grant_type := some "refresh_token", code := none, redirect_uri := none,
    client_id := cid, code_verifier := none, refresh_token := some "R1" }

def c7veh : Vehicle :=
  { id := "1", vin := "5YJ3", display_name := "Car", state := "online", vehicle_id := 7 }

def c7cache : List (String × VCacheEntry) := [("s", { vehicles := [c7veh], lastFetch := 0 })]

def c1btoks : List (String × BearerTok) :=
  [("goodtok", { userSessionId := "u1", expiresAt := 1000 })]

def c1transports : TransportTable := [("t1", "u1")]

/-- Between two stores every stored session keeps all fields except possibly
    `lastActivity`, and no session appears or disappears. -/
def tokenFieldsPreserved (store store2 : SessionStore) : Prop :=
  (∀ sid s, alookup store sid = some s →
     ∃ s', alookup store2 sid = some s' ∧
       s' = { s with lastActivity := s'.lastActivity }) ∧
  (∀ sid, alookup store sid = none → alookup store2 sid = none)

/-! ### Map lemmas -/

theorem alookup_ainsert_self {β : Type} (m : List (String × β)) (k : String) (v : β) :
    alookup (ainsert m k v) k = some v := by
  induction m with
  | nil => simp [ainsert, alookup]
  | cons kv rest ih =>
      rcases kv with ⟨kk, vv⟩
      by_cases hk : kk = k
      · simp [ainsert, alookup, hk]
      · simp [ainsert, alookup, hk, ih]

theorem alookup_ainsert_ne {β : Type} (m : List (String × β)) (k k' : String) (v : β)
    (h : k' ≠ k) : alookup (ainsert m k v) k' = alookup m k' := by
  have hkk : ¬ (k = k') := fun hh => h hh.symm
  induction m with
  | nil => simp [ainsert, alookup, hkk]
  | cons kv rest ih =>
      rcases kv with ⟨kk, vv⟩
      by_cases hk : kk = k
      · subst hk
        simp [ainsert, alookup, hkk]
      · by_cases hk' : kk = k'
        · simp [ainsert, alookup, hk, hk', h]
        · simp [ainsert, alookup, hk, hk', ih]

theorem alookup_aerase_self {β : Type} (m : List (String × β)) (k : String) :
    alookup (aerase m k) k = none := by
  induction m with
  | nil => simp [aerase, alookup]
  | cons kv rest ih =>
      rcases kv with ⟨kk, vv⟩
      by_cases hk : kk = k
      · simp [aerase, hk, ih]
      · simp [aerase, alookup, hk, ih]

theorem alookup_aerase_ne {β : Type} (m : List (String × β)) (k k' : String)
    (h : k' ≠ k) : alookup (aerase m k) k' = alookup m k' := by
  induction m with
  | nil => simp [aerase]
  | cons kv rest ih =>
      rcases kv with ⟨kk, vv⟩
      by_cases hk : kk = k
      · subst hk
        have hkk : ¬ (kk = k') := fun hh => h hh.symm
        simp [aerase, alookup, hkk, ih]
      · by_cases hk' : kk = k'
        · simp [aerase, alookup, hk, hk', h]
        · simp [aerase, alookup, hk, hk', ih]

/-! ### Encoding-length lemmas -/

theorem b64urlEncode_length : ∀ bs : List Nat,
    (b64urlEncode bs).length = (4 * bs.length + 2) / 3
  | [] => by simp [b64urlEncode]
  | [_] => by simp [b64urlEncode]
  | [_, _] => by simp [b64urlEncode]
  | _ :: _ :: _ :: rest => by
      have ih := b64urlEncode_length rest
      simp [b64urlEncode, ih]
      have h3 : 4 * (rest.length + 1 + 1 + 1) + 2 = (4 * rest.length + 2) + 3 * 4 := by ring
      rw [h3, Nat.add_mul_div_left _ _ (by norm_num : (0:ℕ) < 3)]

theorem b64url_length (bs : List Nat) : (b64url bs).length = (4 * bs.length + 2) / 3 := by
  simpa [b64url, String.length] using b64urlEncode_length bs

theorem sha256Round_length (st : List Nat) (kw : Nat × Nat) :
    (sha256Round st kw).length = st.length := by
  unfold sha256Round
  split <;> simp

theorem foldl_sha256Round_length (l : List (Nat × Nat)) (st : List Nat) :
    (l.foldl sha256Round st).length = st.length := by
  induction l generalizing st with
  | nil => rfl
  | cons kw rest ih => simp [List.foldl_cons, ih, sha256Round_length]

theorem sha256Block_length (hsh block : List Nat) :
    (sha256Block hsh block).length = hsh.length := by
  unfold sha256Block
  simp [List.length_zip, foldl_sha256Round_length]

theorem sha256Blocks_length (hsh ws : List Nat) :
    (sha256Blocks hsh ws).length = hsh.length := by
  induction hsh, ws using sha256Blocks.induct with
  | case1 hsh w1 w2 w3 w4 w5 w6 w7 w8 w9 w10 w11 w12 w13 w14 w15 w16 rest ih =>
      rw [sha256Blocks, ih, sha256Block_length]
  | case2 hsh ws h =>
      rw [sha256Blocks.eq_def]
      split
      · exact absurd rfl (h _ _ _ _ _ _ _ _ _ _ _ _ _ _ _ _ _)
      · rfl

theorem flatMap4_length (l : List Nat) :
    (l.flatMap (fun w => [(w >>> 24) % 256, (w >>> 16) % 256, (w >>> 8) % 256, w % 256])).length
      = 4 * l.length := by
  induction l with
  | nil => rfl
  | cons w rest ih =>
      simp only [List.flatMap_cons, List.length_append, List.length_cons, List.length_nil, ih]
      omega

theorem sha256Bytes_length (ms : List Nat) : (sha256Bytes ms).length = 32 := by
  simp only [sha256Bytes]
  rw [flatMap4_length, sha256Blocks_length]
  rfl

theorem sha256B64url_length (s : String) : (sha256B64url s).length = 43 := by
  rw [sha256B64url, b64url_length, sha256Bytes_length]

theorem sha256B64url_ne_empty (s : String) : sha256B64url s ≠ "" := by
  intro h
  have := sha256B64url_length s
  rw [h] at this
  simp [String.length] at this

/-! ## Claim theorems -/

/-- C5 counterexample: for the session `c5x` (access token present,
    `tokenExpiration` present with value `0`) and `now = 5`,
    `hasValidTokens` returns `true` although the claimed right-hand side —
    token expiration absent or strictly greater than `now` — is false:
    JS truthiness skips the expiry comparison when `tokenExpiration` is `0`. -/
theorem c5_hasValidTokens_counterexample :
    hasValidTokens [("s", c5x)] "s" 5 = true ∧
    ¬ (∃ s, alookup [("s", c5x)] "s" = some s ∧
        (∃ a, s.accessToken = some a ∧ a ≠ "") ∧
        (s.tokenExpiration = none ∨ ∃ t, s.tokenExpiration = some t ∧ 5 < t)) := by
  constructor
  · decide
  · rintro ⟨s, hs, -, hte⟩
    have hsx : s = c5x := by
      have : alookup [("s", c5x)] "s" = some c5x := by decide
      rw [this] at hs
      exact (Option.some.injEq _ _ ▸ hs).symm ▸ rfl
    subst hsx
    rcases hte with h | ⟨t, ht, hlt⟩
    · simp [c5x] at h
    · rw [show c5x.tokenExpiration = some 0 from rfl] at ht
      cases ht
      omega

/-- C5 (amended): `hasValidTokens(s)` is true iff the session exists, its
    `accessToken` is set and non-empty, and its `tokenExpiration` is absent,
    zero (falsy in JS, so treated as unset), or strictly greater than `now`;
    and the biconditional holds on the store produced by any `updateSession`
    call (in particular one that sets or clears these fields). -/
theorem c5_hasValidTokens_iff :
    (∀ (store : SessionStore) (sid : String) (now : Nat),
      hasValidTokens store sid now = true ↔
        ∃ s, alookup store sid = some s ∧
          (∃ a, s.accessToken = some a ∧ a ≠ "") ∧
          (s.tokenExpiration = none ∨ s.tokenExpiration = some 0 ∨
            ∃ t, s.tokenExpiration = some t ∧ now < t)) ∧
    (∀ (store : SessionStore) (sid : String) (p : SessionPatch) (now : Nat)
        (sid' : String) (now' : Nat),
      hasValidTokens (updateSession store sid p now).2 sid' now' = true ↔
        ∃ s, alookup (updateSession store sid p now).2 sid' = some s ∧
          (∃ a, s.accessToken = some a ∧ a ≠ "") ∧
          (s.tokenExpiration = none ∨ s.tokenExpiration = some 0 ∨
            ∃ t, s.tokenExpiration = some t ∧ now' < t)) := by
  have main : ∀ (store : SessionStore) (sid : String) (now : Nat),
      hasValidTokens store sid now = true ↔
        ∃ s, alookup store sid = some s ∧
          (∃ a, s.accessToken = some a ∧ a ≠ "") ∧
          (s.tokenExpiration = none ∨ s.tokenExpiration = some 0 ∨
            ∃ t, s.tokenExpiration = some t ∧ now < t) := by
    intro store sid now
    unfold hasValidTokens
    cases hl : alookup store sid with
    | none => simp
    | some s =>
        rcases hA : s.accessToken with _ | a
        · simp [strTruthy, hA]
        · rcases hT : s.tokenExpiration with _ | t
          · by_cases ha : a = "" <;> simp [strTruthy, numTruthy, hA, hT, ha]
          · by_cases ha : a = ""
            · simp [strTruthy, hA, ha]
            · rcases Nat.eq_zero_or_pos t with h0 | hpos
              · subst h0
                simp [strTruthy, numTruthy, hA, hT, ha]
              · by_cases hle : t ≤ now
                · simp only [strTruthy, numTruthy, hA, hT, ha]
                  simp [Option.getD, hle]
                  constructor
                  · rintro ⟨-, h0⟩
                    omega
                  · rintro ⟨-, (h | h | ⟨t', ht', hlt⟩)⟩
                    · rw [hT] at h
                      exact Option.noConfusion h
                    · rw [hT] at h
                      injection h with h0
                      omega
                    · rw [hT] at ht'
                      injection ht' with h0
                      omega
                · simp only [strTruthy, numTruthy, hA, hT, ha]
                  simp [Option.getD, hle]
                  constructor
                  · intro hne
                    exact ⟨⟨a, hA, ha⟩, Or.inr (Or.inr ⟨t, hT, by omega⟩)⟩
                  · intro hrhs
                    exact ha
  exact ⟨main, fun store sid p now sid' now' => main _ sid' now'⟩

/-- C6: `validateState(id, suppliedState)` is true exactly when the stored
    `state` of session `id` equals `suppliedState` (false when the session or
    its state is absent); the embedding is a pure read, mirroring the source,
    which only calls `sessions.get` and clears nothing.  After
    `generateOAuthState(id)` (any 16 random bytes), validating the returned
    state succeeds, validating `"wrong"` fails (the generated state has
    length 22), and validating anything against an unknown id fails. -/
theorem c6_validateState :
    (∀ (store : SessionStore) (sid st : String),
       validateState store sid st = true ↔
         ∃ s, alookup store sid = some s ∧ s.state = some st) ∧
    (∀ (store : SessionStore) (sid st : String),
       alookup store sid = none → validateState store sid st = false) ∧
    (∀ (store : SessionStore) (sid : String) (rand : List Nat) (now : Nat),
       rand.length = 16 → (∃ s0, alookup store sid = some s0) →
       validateState (generateOAuthState store sid rand now).2 sid
           (generateOAuthState store sid rand now).1 = true ∧
       validateState (generateOAuthState store sid rand now).2 sid "wrong" = false) := by
  refine ⟨?_, ?_, ?_⟩
  · intro store sid st
    unfold validateState
    cases hl : alookup store sid with
    | none => simp
    | some s => simp
  · intro store sid st hl
    unfold validateState
    rw [hl]
  · rintro store sid rand now hr ⟨s0, h0⟩
    have hlen : (b64url rand).length = 22 := by rw [b64url_length, hr]
    have hne : b64url rand ≠ "wrong" := by
      intro h
      rw [h] at hlen
      exact absurd hlen (by decide)
    have hupd : (generateOAuthState store sid rand now).2
        = ainsert store sid (applyPatch s0 { state := some (some (b64url rand)) } now) := by
      simp [generateOAuthState, updateSession, h0]
    have hlook : alookup (generateOAuthState store sid rand now).2 sid
        = some (applyPatch s0 { state := some (some (b64url rand)) } now) := by
      rw [hupd, alookup_ainsert_self]
    have hstate : (applyPatch s0 { state := some (some (b64url rand)) } now).state
        = some (b64url rand) := rfl
    constructor
    · have hg : (generateOAuthState store sid rand now).1 = b64url rand := rfl
      rw [hg]
      unfold validateState
      rw [hlook]
      simp [hstate]
    · unfold validateState
      rw [hlook]
      simp [hstate, hne]

/-- C6 witness: on a one-session store with 16 concrete random bytes,
    validating the generated state succeeds, `"wrong"` fails, and an unknown
    session id fails. -/
theorem c6_validateState_witness :
    validateState (generateOAuthState [("s", fxSession "s")] "s" (List.range 16) 0).2 "s"
        (generateOAuthState [("s", fxSession "s")] "s" (List.range 16) 0).1 = true ∧
    validateState (generateOAuthState [("s", fxSession "s")] "s" (List.range 16) 0).2 "s"
        "wrong" = false ∧
    validateState [("s", fxSession "s")] "other" "anything" = false := by
  refine ⟨?_, ?_, ?_⟩
  · exact (c6_validateState.2.2 _ "s" _ 0 (by decide) ⟨fxSession "s", by decide⟩).1
  · exact (c6_validateState.2.2 _ "s" _ 0 (by decide) ⟨fxSession "s", by decide⟩).2
  · exact c6_validateState.2.1 _ _ _ (by decide)

/-- C2 counterexample: with auth code `c1` recorded for client `cl`, a token
    exchange presenting `client_id = "other"` fails with `invalid_grant` but
    the code record is NOT deleted — the source deletes the record only in
    the absent/expired branch and on success, not on mismatch. -/
theorem c2_exchange_counterexample :
    (oauthToken c2st (c2req (some "other")) 0 "A" "R").1 = .err 400 "invalid_grant" ∧
    alookup (oauthToken c2st (c2req (some "other")) 0 "A" "R").2.authCodes "c1" = some c2ac ∧
    (oauthToken (oauthToken c2st (c2req (some "other")) 0 "A" "R").2
        (c2req (some "cl")) 0 "A" "R").1 =
      .ok { access_token := "A", expires_in := 3600, refresh_token := some "R" } := by
  refine ⟨by decide, by decide, by decide⟩

/-- C2 (amended): for `grant_type=authorization_code`, an absent or expired
    code fails with `invalid_grant` and the record is deleted; a `client_id`
    or `redirect_uri` mismatch or a PKCE failure fails with `invalid_grant`
    but RETAINS the code record (the state is returned unchanged); a
    successful exchange consumes and deletes the code, so exchanging the
    same code twice yields success then `invalid_grant`. -/
theorem c2_code_exchange :
    (∀ (st : TokenState) (req : TokenReq) (now : Nat) (fa fr : String),
       req.grant_type = some "authorization_code" →
       req.code.bind (alookup st.authCodes) = none →
       (oauthToken st req now fa fr).1 = .err 400 "invalid_grant" ∧
       ∀ c, req.code = some c →
         alookup (oauthToken st req now fa fr).2.authCodes c = none) ∧
    (∀ (st : TokenState) (req : TokenReq) (now : Nat) (fa fr : String) (c : String)
        (ac : AuthCode),
       req.grant_type = some "authorization_code" →
       req.code = some c → alookup st.authCodes c = some ac →
       ac.expiresAt < now →
       (oauthToken st req now fa fr).1 = .err 400 "invalid_grant" ∧
       alookup (oauthToken st req now fa fr).2.authCodes c = none) ∧
    (∀ (st : TokenState) (req : TokenReq) (now : Nat) (fa fr : String) (c : String)
        (ac : AuthCode),
       req.grant_type = some "authorization_code" →
       req.code = some c → alookup st.authCodes c = some ac →
       ¬ ac.expiresAt < now →
       (some ac.clientId ≠ req.client_id ∨ some ac.redirectUri ≠ req.redirect_uri) →
       oauthToken st req now fa fr = (.err 400 "invalid_grant", st)) ∧
    (∀ (st : TokenState) (req : TokenReq) (now : Nat) (fa fr : String) (c : String)
        (ac : AuthCode),
       req.grant_type = some "authorization_code" →
       req.code = some c → alookup st.authCodes c = some ac →
       ¬ ac.expiresAt < now →
       req.client_id = some ac.clientId → req.redirect_uri = some ac.redirectUri →
       ac.codeChallenge ≠ "" →
       sha256B64url (req.code_verifier.getD "") ≠ ac.codeChallenge →
       oauthToken st req now fa fr = (.err 400 "invalid_grant", st)) ∧
    (∀ (st : TokenState) (req : TokenReq) (now now' : Nat) (fa fr fa' fr' : String)
        (c : String) (ac : AuthCode),
       req.grant_type = some "authorization_code" →
       req.code = some c → alookup st.authCodes c = some ac →
       ¬ ac.expiresAt < now →
       req.client_id = some ac.clientId → req.redirect_uri = some ac.redirectUri →
       (ac.codeChallenge = "" ∨ sha256B64url (req.code_verifier.getD "") = ac.codeChallenge) →
       (oauthToken st req now fa fr).1 =
         .ok { access_token := fa, expires_in := 3600, refresh_token := some fr } ∧
       alookup (oauthToken st req now fa fr).2.authCodes c = none ∧
       (oauthToken (oauthToken st req now fa fr).2 req now' fa' fr').1 =
         .err 400 "invalid_grant") := by
  have absent : ∀ (st : TokenState) (req : TokenReq) (now : Nat) (fa fr : String),
      req.grant_type = some "authorization_code" →
      req.code.bind (alookup st.authCodes) = none →
      (oauthToken st req now fa fr).1 = .err 400 "invalid_grant" ∧
      ∀ c, req.code = some c →
        alookup (oauthToken st req now fa fr).2.authCodes c = none := by
    intro st req now fa fr hg hb
    unfold oauthToken
    rw [if_pos hg]
    simp only [hb]
    refine ⟨trivial, ?_⟩
    intro c hc
    rw [hc]
    simp only [deleteCode]
    rw [alookup_aerase_self]
  refine ⟨absent, ?_, ?_, ?_, ?_⟩
  · intro st req now fa fr c ac hg hc hl hexp
    have hb : req.code.bind (alookup st.authCodes) = some ac := by
      rw [hc]; simpa using hl
    unfold oauthToken
    rw [if_pos hg]
    simp only [hb]
    rw [if_pos hexp]
    refine ⟨rfl, ?_⟩
    rw [hc]
    simp only [deleteCode]
    rw [alookup_aerase_self]
  · intro st req now fa fr c ac hg hc hl hexp hmis
    have hb : req.code.bind (alookup st.authCodes) = some ac := by
      rw [hc]; simpa using hl
    unfold oauthToken
    rw [if_pos hg]
    simp only [hb]
    rw [if_neg hexp, if_pos hmis]
  · intro st req now fa fr c ac hg hc hl hexp hcid hred hch hpk
    have hb : req.code.bind (alookup st.authCodes) = some ac := by
      rw [hc]; simpa using hl
    have hnomis : ¬ (some ac.clientId ≠ req.client_id ∨ some ac.redirectUri ≠ req.redirect_uri) := by
      simp [hcid, hred]
    unfold oauthToken
    rw [if_pos hg]
    simp only [hb]
    rw [if_neg hexp, if_neg hnomis, if_pos ⟨hch, hpk⟩]
  · intro st req now now' fa fr fa' fr' c ac hg hc hl hexp hcid hred hpk
    have hb : req.code.bind (alookup st.authCodes) = some ac := by
      rw [hc]; simpa using hl
    have hnomis : ¬ (some ac.clientId ≠ req.client_id ∨ some ac.redirectUri ≠ req.redirect_uri) := by
      simp [hcid, hred]
    have hnopk : ¬ (ac.codeChallenge ≠ "" ∧
        sha256B64url (req.code_verifier.getD "") ≠ ac.codeChallenge) := by
      rcases hpk with h | h
      · exact fun hh => hh.1 h
      · exact fun hh => hh.2 h
    have hred1 : oauthToken st req now fa fr =
        (.ok { access_token := fa, expires_in := 3600, refresh_token := some fr },
         { authCodes := deleteCode st.authCodes req.code
           bearerToks := ainsert st.bearerToks fa
             { userSessionId := ac.userSessionId, expiresAt := now + 3600 * 1000 }
           refreshToks := ainsert st.refreshToks fr
             { userSessionId := ac.userSessionId, clientId := ac.clientId } }) := by
      unfold oauthToken
      rw [if_pos hg]
      simp only [hb]
      rw [if_neg hexp, if_neg hnomis, if_neg hnopk]
    have hdel : alookup (oauthToken st req now fa fr).2.authCodes c = none := by
      rw [hred1, hc]
      simp only [deleteCode]
      rw [alookup_aerase_self]
    refine ⟨by rw [hred1], hdel, ?_⟩
    have hb2 : req.code.bind (alookup (oauthToken st req now fa fr).2.authCodes) = none := by
      rw [hc]
      simpa using hdel
    exact (absent _ req now' fa' fr' hg hb2).1

/-- C2 witness: a concrete successful exchange (code `c1`, matching client
    and redirect, no PKCE challenge recorded) issues tokens, consumes the
    code, and a second exchange of the same code fails with `invalid_grant`. -/
theorem c2_code_exchange_witness :
    (oauthToken c2st (c2req (some "cl")) 0 "A" "R").1 =
      .ok { access_token := "A", expires_in := 3600, refresh_token := some "R" } ∧
    alookup (oauthToken c2st (c2req (some "cl")) 0 "A" "R").2.authCodes "c1" = none ∧
    (oauthToken (oauthToken c2st (c2req (some "cl")) 0 "A" "R").2
        (c2req (some "cl")) 0 "A2" "R2").1 = .err 400 "invalid_grant" := by
  exact c2_code_exchange.2.2.2.2 c2st (c2req (some "cl")) 0 0 "A" "R" "A2" "R2" "c1" c2ac
    (by decide) (by decide) (by decide) (by decide) (by decide) (by decide) (Or.inl (by decide))

/-- C3: `generatePKCE` returns a verifier/challenge pair with the challenge
    equal to the base64url (no padding) of SHA-256 of the verifier, and
    stores the verifier on the session; a token exchange whose recorded code
    challenge is that challenge succeeds with the matching `code_verifier`
    and fails with `invalid_grant` for any verifier whose SHA-256 differs
    (the code compares the recomputed hash, so "any altered verifier" means
    any verifier not hashing to the recorded challenge). -/
theorem c3_pkce_roundtrip :
    ∀ (store : SessionStore) (sid : String) (rand : List Nat) (now : Nat) (v ch : String),
      (generatePKCE store sid rand now).1 = (v, ch) →
      ch = sha256B64url v ∧
      ((∃ s0, alookup store sid = some s0) →
         ∃ s', alookup (generatePKCE store sid rand now).2 sid = some s' ∧
           s'.codeVerifier = some v) ∧
      (∀ (st : TokenState) (req : TokenReq) (now' : Nat) (fa fr : String) (c : String)
          (ac : AuthCode),
         req.grant_type = some "authorization_code" →
         req.code = some c → alookup st.authCodes c = some ac →
         ¬ ac.expiresAt < now' →
         req.client_id = some ac.clientId → req.redirect_uri = some ac.redirectUri →
         ac.codeChallenge = ch →
         req.code_verifier = some v →
         (oauthToken st req now' fa fr).1 =
           .ok { access_token := fa, expires_in := 3600, refresh_token := some fr }) ∧
      (∀ (st : TokenState) (req : TokenReq) (now' : Nat) (fa fr : String) (c : String)
          (ac : AuthCode) (v' : String),
         req.grant_type = some "authorization_code" →
         req.code = some c → alookup st.authCodes c = some ac →
         ¬ ac.expiresAt < now' →
         req.client_id = some ac.clientId → req.redirect_uri = some ac.redirectUri →
         ac.codeChallenge = ch →
         req.code_verifier = some v' →
         sha256B64url v' ≠ ch →
         (oauthToken st req now' fa fr).1 = .err 400 "invalid_grant") := by
  intro store sid rand now v ch hvc
  have hpair : (generatePKCE store sid rand now).1
      = (b64url rand, sha256B64url (b64url rand)) := rfl
  rw [hpair] at hvc
  have hv : v = b64url rand := (Prod.mk.injEq _ _ _ _ ▸ hvc).1.symm
  have hch : ch = sha256B64url (b64url rand) := (Prod.mk.injEq _ _ _ _ ▸ hvc).2.symm
  subst hv
  refine ⟨by rw [hch], ?_, ?_, ?_⟩
  · rintro ⟨s0, h0⟩
    have hupd : (generatePKCE store sid rand now).2
        = ainsert store sid
            (applyPatch s0 { codeVerifier := some (some (b64url rand)) } now) := by
      simp [generatePKCE, updateSession, h0]
    refine ⟨applyPatch s0 { codeVerifier := some (some (b64url rand)) } now, ?_, rfl⟩
    rw [hupd, alookup_ainsert_self]
  · intro st req now' fa fr c ac hg hc hl hexp hcid hred hchal hver
    have hb : req.code.bind (alookup st.authCodes) = some ac := by
      rw [hc]; simpa using hl
    have hnomis : ¬ (some ac.clientId ≠ req.client_id ∨ some ac.redirectUri ≠ req.redirect_uri) := by
      simp [hcid, hred]
    have hnopk : ¬ (ac.codeChallenge ≠ "" ∧
        sha256B64url (req.code_verifier.getD "") ≠ ac.codeChallenge) := by
      intro hh
      apply hh.2
      rw [hver, hchal, hch]
      rfl
    unfold oauthToken
    rw [if_pos hg]
    simp only [hb]
    rw [if_neg hexp, if_neg hnomis, if_neg hnopk]
  · intro st req now' fa fr c ac v' hg hc hl hexp hcid hred hchal hver hne
    have hb : req.code.bind (alookup st.authCodes) = some ac := by
      rw [hc]; simpa using hl
    have hnomis : ¬ (some ac.clientId ≠ req.client_id ∨ some ac.redirectUri ≠ req.redirect_uri) := by
      simp [hcid, hred]
    have hpk : ac.codeChallenge ≠ "" ∧
        sha256B64url (req.code_verifier.getD "") ≠ ac.codeChallenge := by
      constructor
      · rw [hchal, hch]
        exact sha256B64url_ne_empty _
      · rw [hver, hchal]
        exact hne
    unfold oauthToken
    rw [if_pos hg]
    simp only [hb]
    rw [if_neg hexp, if_neg hnomis, if_pos hpk]

set_option maxRecDepth 100000 in
/-- C3 witness: with the 32 concrete verifier bytes `c3rand`, the generated
    challenge is the base64url SHA-256 of the verifier; the concrete exchange
    with the matching verifier succeeds and with the altered verifier
    `"altered"` fails with `invalid_grant`. -/
theorem c3_pkce_roundtrip_witness :
    c3ch = sha256B64url c3v ∧
    (oauthToken c3st (c3req c3v) 0 "A" "R").1 =
      .ok { access_token := "A", expires_in := 3600, refresh_token := some "R" } ∧
    (oauthToken c3st (c3req "altered") 0 "A" "R").1 = .err 400 "invalid_grant" := by
  have h := c3_pkce_roundtrip [] "s" c3rand 0 c3v c3ch rfl
  refine ⟨h.1, ?_, ?_⟩
  · exact h.2.2.1 c3st (c3req c3v) 0 "A" "R" "code1" c3ac
      rfl rfl rfl (by decide) rfl rfl rfl rfl
  · exact h.2.2.2 c3st (c3req "altered") 0 "A" "R" "code1" c3ac "altered"
      rfl rfl rfl (by decide) rfl rfl rfl rfl (by decide)

/-- C4: `/oauth/authorize` rejects `response_type ≠ 'code'` with
    `unsupported_response_type`, an unregistered `client_id` with
    `invalid_client`, and a `redirect_uri` that is not an exact member of the
    client's registered list with `invalid_redirect_uri`; each rejection
    returns the session store unchanged (no session created).  On success a
    fresh session keyed by the new session id exists with the external
    client's OAuth parameters stashed on it, and the user agent is
    redirected into the Tesla login sub-flow. -/
theorem c4_authorize :
    (∀ (clients : List (String × OAuthClient)) (store : SessionStore) (req : AuthorizeReq)
        (fsid : String) (creds : Option (String × String)) (burl : String) (now : Nat),
       req.response_type ≠ some "code" →
       oauthAuthorize clients store req fsid creds burl now =
         (.err 400 "unsupported_response_type", store)) ∧
    (∀ (clients : List (String × OAuthClient)) (store : SessionStore) (req : AuthorizeReq)
        (fsid : String) (creds : Option (String × String)) (burl : String) (now : Nat),
       req.response_type = some "code" →
       req.client_id.bind (alookup clients) = none →
       oauthAuthorize clients store req fsid creds burl now =
         (.err 400 "invalid_client", store)) ∧
    (∀ (clients : List (String × OAuthClient)) (store : SessionStore) (req : AuthorizeReq)
        (fsid : String) (creds : Option (String × String)) (burl : String) (now : Nat)
        (client : OAuthClient),
       req.response_type = some "code" →
       req.client_id.bind (alookup clients) = some client →
       (∀ r, req.redirect_uri = some r → r ∉ client.redirect_uris) →
       oauthAuthorize clients store req fsid creds burl now =
         (.err 400 "invalid_redirect_uri", store)) ∧
    (∀ (clients : List (String × OAuthClient)) (store : SessionStore) (req : AuthorizeReq)
        (fsid : String) (creds : Option (String × String)) (burl : String) (now : Nat)
        (client : OAuthClient) (r : String),
       req.response_type = some "code" →
       req.client_id.bind (alookup clients) = some client →
       req.redirect_uri = some r → r ∈ client.redirect_uris →
       (oauthAuthorize clients store req fsid creds burl now).1 =
         .redirect (burl ++ "/auth/login?session=" ++ fsid) ∧
       ∃ s, alookup (oauthAuthorize clients store req fsid creds burl now).2 fsid = some s ∧
         s.sessionId = fsid ∧ s.createdAt = now ∧
         s.oauthClientId = req.client_id ∧ s.oauthRedirectUri = some r ∧
         s.oauthClientState = req.state ∧ s.oauthCodeChallenge = req.code_challenge) := by
  refine ⟨?_, ?_, ?_, ?_⟩
  · intro clients store req fsid creds burl now h1
    unfold oauthAuthorize
    rw [if_pos h1]
  · intro clients store req fsid creds burl now h1 hb
    have hne : ¬(req.response_type ≠ some "code") := fun hne => hne h1
    unfold oauthAuthorize
    rw [if_neg hne]
    simp only [hb]
  · intro clients store req fsid creds burl now client h1 hb hnot
    have hne : ¬(req.response_type ≠ some "code") := fun hne => hne h1
    have hmem : redirectAllowed client req.redirect_uri = false := by
      unfold redirectAllowed
      cases hru : req.redirect_uri with
      | none => rfl
      | some r => simpa using hnot r hru
    unfold oauthAuthorize
    rw [if_neg hne]
    simp only [hb, hmem]
    simp
  · intro clients store req fsid creds burl now client r h1 hb hru hr
    have hne : ¬(req.response_type ≠ some "code") := fun hne => hne h1
    have hmem : redirectAllowed client req.redirect_uri = true := by
      unfold redirectAllowed
      rw [hru]
      simpa using hr
    unfold oauthAuthorize
    rw [if_neg hne]
    cases creds with
    | none =>
        simp only [hb, hmem, Bool.not_true, Bool.false_eq_true, if_false, createSession,
                   updateSession, alookup_ainsert_self]
        refine ⟨trivial, _, rfl, rfl, rfl, rfl, by simp [applyPatch, hru], rfl, rfl⟩
    | some cr =>
        simp only [hb, hmem, Bool.not_true, Bool.false_eq_true, if_false, createSession,
                   updateSession, alookup_ainsert_self]
        refine ⟨trivial, _, rfl, rfl, rfl, rfl, by simp [applyPatch, hru], rfl, rfl⟩

/-- C4 witness: concrete requests against the registered client `cid`
    (single registered redirect `https://app/cb`): a `token` response type,
    an unknown client, and an unregistered redirect are each rejected with
    the store unchanged; the well-formed request redirects into the login
    sub-flow and creates the session carrying the client's parameters. -/
theorem c4_authorize_witness :
    oauthAuthorize c4clients [] { c4req (some "https://app/cb") with response_type := some "token" }
        "ns" none "https://b" 3 = (.err 400 "unsupported_response_type", []) ∧
    oauthAuthorize c4clients [] { c4req (some "https://app/cb") with client_id := some "nope" }
        "ns" none "https://b" 3 = (.err 400 "invalid_client", []) ∧
    oauthAuthorize c4clients [] (c4req (some "https://evil/cb")) "ns" none "https://b" 3 =
        (.err 400 "invalid_redirect_uri", []) ∧
    (oauthAuthorize c4clients [] (c4req (some "https://app/cb")) "ns" none "https://b" 3).1 =
        .redirect "https://b/auth/login?session=ns" ∧
    ∃ s, alookup (oauthAuthorize c4clients [] (c4req (some "https://app/cb")) "ns" none
          "https://b" 3).2 "ns" = some s ∧
      s.oauthClientId = some "cid" ∧ s.oauthRedirectUri = some "https://app/cb" := by
  refine ⟨?_, ?_, ?_, ?_, ?_⟩
  · exact c4_authorize.1 c4clients [] _ "ns" none "https://b" 3 (by decide)
  · exact c4_authorize.2.1 c4clients [] _ "ns" none "https://b" 3 rfl (by decide)
  · exact c4_authorize.2.2.1 c4clients [] _ "ns" none "https://b" 3 c4client rfl (by decide)
      (by intro r hr; cases hr; decide)
  · exact (c4_authorize.2.2.2 c4clients [] _ "ns" none "https://b" 3 c4client
      "https://app/cb" rfl (by decide) rfl (by decide)).1
  · obtain ⟨-, s, hs, -, -, hcid, hred, -, -⟩ :=
      c4_authorize.2.2.2 c4clients [] (c4req (some "https://app/cb")) "ns" none "https://b" 3
        c4client "https://app/cb" rfl (by decide) rfl (by decide)
    exact ⟨s, hs, by rw [hcid]; rfl, hred⟩

/-- C1 counterexample: a `DELETE /mcp` request with NO `Authorization`
    header, against an empty bearer-token store, is not rejected: it
    responds 200 and tears down (touches) the transport named by its
    `mcp-session-id` header — the source's DELETE handler never calls
    `authenticateMcpBearer`. -/
theorem c1_mcp_delete_counterexample :
    (mcpDelete c1transports none (some "t1")).1.status = some 200 ∧
    (mcpDelete c1transports none (some "t1")).1.touched = true ∧
    (mcpDelete c1transports none (some "t1")).2 = [] := by
  refine ⟨by decide, by decide, by decide⟩

/-- C1 (amended): GET and POST on `/mcp` require a valid bearer token —
    an absent header, a header without the `Bearer ` scheme, a token with no
    stored record, or an expired record makes `authenticateMcpBearer` fail,
    and the handler then responds 401 with a `WWW-Authenticate` header
    pointing at the protected-resource metadata document, leaving the
    transport table untouched.  DELETE performs no bearer check: its
    behaviour is independent of the `Authorization` header and it always
    responds 200. -/
theorem c1_mcp_bearer :
    (∀ (btoks : List (String × BearerTok)) (authHeader : Option String) (now : Nat),
       (authenticateMcpBearer btoks authHeader now).1 = none ↔
         (authHeader = none ∨
          ∃ a, authHeader = some a ∧
            (isBearerHeader a = false ∨
             alookup btoks (bearerValue a) = none ∨
             ∃ stored, alookup btoks (bearerValue a) = some stored ∧ stored.expiresAt < now))) ∧
    (∀ (btoks : List (String × BearerTok)) (transports : TransportTable)
        (authHeader mcpSessionId : Option String) (baseUrl : String) (now : Nat)
        (freshTid : String),
       (authenticateMcpBearer btoks authHeader now).1 = none →
       mcpPost btoks transports authHeader mcpSessionId baseUrl now freshTid =
         ({ status := some 401, wwwAuth := some (wwwAuthHeader baseUrl), touched := false },
          (authenticateMcpBearer btoks authHeader now).2, transports)) ∧
    (∀ (btoks : List (String × BearerTok)) (transports : TransportTable)
        (authHeader mcpSessionId : Option String) (baseUrl : String) (now : Nat),
       (authenticateMcpBearer btoks authHeader now).1 = none →
       mcpGet btoks transports authHeader mcpSessionId baseUrl now =
         ({ status := some 401, wwwAuth := some (wwwAuthHeader baseUrl), touched := false },
          (authenticateMcpBearer btoks authHeader now).2, transports)) ∧
    (∀ (transports : TransportTable) (a1 a2 mcpSessionId : Option String),
       mcpDelete transports a1 mcpSessionId = mcpDelete transports a2 mcpSessionId ∧
       (mcpDelete transports a1 mcpSessionId).1.status = some 200) := by
  refine ⟨?_, ?_, ?_, ?_⟩
  · intro btoks authHeader now
    cases authHeader with
    | none => simp [authenticateMcpBearer]
    | some a =>
        simp only [authenticateMcpBearer]
        by_cases hsw : isBearerHeader a
        · rw [if_neg (by simp [hsw])]
          cases hl : alookup btoks (bearerValue a) with
          | none => simp [hsw, hl]
          | some stored =>
              simp only []
              by_cases hexp : stored.expiresAt < now
              · rw [if_pos hexp]
                simp [hsw, hl, hexp]
              · rw [if_neg hexp]
                constructor
                · intro h
                  exact absurd h (by simp)
                · rintro (h | ⟨a', ha', (h | h | ⟨st', hst', hexp'⟩)⟩)
                  · exact absurd h (by simp)
                  · cases ha'
                    simp [h] at hsw
                  · cases ha'
                    rw [hl] at h
                    exact Option.noConfusion h
                  · cases ha'
                    rw [hl] at hst'
                    injection hst' with he
                    rw [← he] at hexp'
                    exact absurd hexp' hexp
        · rw [if_pos (by simp [hsw])]
          constructor
          · intro h
            exact Or.inr ⟨a, rfl, Or.inl (by simpa using hsw)⟩
          · intro h
            rfl
  · intro btoks transports authHeader mcpSessionId baseUrl now freshTid hnone
    simp only [mcpPost, hnone]
  · intro btoks transports authHeader mcpSessionId baseUrl now hnone
    simp only [mcpGet, hnone]
  · intro transports a1 a2 mcpSessionId
    constructor
    · rfl
    · unfold mcpDelete
      by_cases h : (strTruthy mcpSessionId &&
          (alookup transports (mcpSessionId.getD "")).isSome) = true
      · rw [if_pos h]
      · rw [if_neg h]

/-- C1 witness: against the bearer store holding only `goodtok` (expiring at
    time 1000), a POST with no header, a POST presenting an unknown token,
    and a GET presenting `goodtok` after expiry each yield 401 with the
    metadata-pointing `WWW-Authenticate` header without touching the
    transport table; a DELETE still answers 200. -/
theorem c1_mcp_bearer_witness :
    mcpPost c1btoks c1transports none none "https://b" 0 "f" =
      ({ status := some 401, wwwAuth := some (wwwAuthHeader "https://b"), touched := false },
       c1btoks, c1transports) ∧
    mcpPost c1btoks c1transports (some "Bearer nope") none "https://b" 0 "f" =
      ({ status := some 401, wwwAuth := some (wwwAuthHeader "https://b"), touched := false },
       c1btoks, c1transports) ∧
    mcpGet c1btoks c1transports (some "Bearer goodtok") (some "t1") "https://b" 5000 =
      ({ status := some 401, wwwAuth := some (wwwAuthHeader "https://b"), touched := false },
       [], c1transports) ∧
    (mcpDelete c1transports (some "Bearer goodtok") (some "t1")).1.status = some 200 := by
  refine ⟨?_, ?_, ?_, ?_⟩
  · exact c1_mcp_bearer.2.1 c1btoks c1transports none none "https://b" 0 "f" (by decide)
  · exact c1_mcp_bearer.2.1 c1btoks c1transports (some "Bearer nope") none "https://b" 0 "f"
      (by decide)
  · exact c1_mcp_bearer.2.2.1 c1btoks c1transports (some "Bearer goodtok") (some "t1")
      "https://b" 5000 (by decide)
  · exact (c1_mcp_bearer.2.2.2 c1transports (some "Bearer goodtok") none (some "t1")).2

/-- C7 counterexample: a session with NO refresh token (not authenticated)
    but a fresh, non-empty cache entry: with `forceRefresh = false` the call
    returns the cached vehicles, not the empty list the claim's
    "not authenticated ⇒ empty list" clause demands — the freshness check
    runs before the authentication check. -/
theorem c7_cache_counterexample :
    (getVehiclesForSession [("s", fxSession "s")] c7cache "s" false 1000 (.error ())).1
      = [c7veh] ∧
    (isAuthenticated [("s", fxSession "s")] "s" 1000).1 = false ∧
    [c7veh] ≠ ([] : List Vehicle) := by
  refine ⟨by decide, by decide, by decide⟩

/-- C7 (amended): with `forceRefresh = false` and a cache entry younger than
    60 seconds, the cached vehicles are returned with no upstream fetch;
    past that fast path, if the session is authenticated and the upstream
    fetch throws, the prior cached vehicles (or the empty list when none)
    are returned with the cache unchanged; and if the session is not
    authenticated the empty list is returned with no fetch attempted. -/
theorem c7_vehicle_cache :
    (∀ (store : SessionStore) (vcache : List (String × VCacheEntry)) (sid : String)
        (now : Nat) (fetch : Except Unit (List Vehicle)) (c : VCacheEntry),
       alookup vcache sid = some c → now - c.lastFetch < CACHE_TTL →
       getVehiclesForSession store vcache sid false now fetch = (c.vehicles, vcache, false)) ∧
    (∀ (store : SessionStore) (vcache : List (String × VCacheEntry)) (sid : String)
        (forceRefresh : Bool) (now : Nat),
       (forceRefresh = true ∨ cacheFresh (alookup vcache sid) now = false) →
       (isAuthenticated store sid now).1 = true →
       getVehiclesForSession store vcache sid forceRefresh now (.error ()) =
         (((alookup vcache sid).map (fun c => c.vehicles)).getD [], vcache, true)) ∧
    (∀ (store : SessionStore) (vcache : List (String × VCacheEntry)) (sid : String)
        (forceRefresh : Bool) (now : Nat) (fetch : Except Unit (List Vehicle)),
       (forceRefresh = true ∨ cacheFresh (alookup vcache sid) now = false) →
       (isAuthenticated store sid now).1 = false →
       getVehiclesForSession store vcache sid forceRefresh now fetch = ([], vcache, false)) := by
  refine ⟨?_, ?_, ?_⟩
  · intro store vcache sid now fetch c hc hfresh
    have hguard : (!false && cacheFresh (alookup vcache sid) now) = true := by
      simp [cacheFresh, hc, hfresh]
    unfold getVehiclesForSession
    rw [if_pos hguard, hc]
    rfl
  · intro store vcache sid forceRefresh now hpast hauth
    have hguard : (!forceRefresh && cacheFresh (alookup vcache sid) now) = false := by
      rcases hpast with h | h <;> simp [h]
    unfold getVehiclesForSession
    rw [if_neg (by simp [hguard]), if_neg (by simp [hauth])]
  · intro store vcache sid forceRefresh now fetch hpast hauth
    have hguard : (!forceRefresh && cacheFresh (alookup vcache sid) now) = false := by
      rcases hpast with h | h <;> simp [h]
    unfold getVehiclesForSession
    rw [if_neg (by simp [hguard]), if_pos (by simp [hauth])]

/-- C7 witness: for the authenticated session `c9s` with a stale cache
    entry, a failing fetch returns the prior cached vehicles unchanged (and
    the empty list when no entry exists); for the unauthenticated bare
    session past the fast path, the empty list is returned with no fetch. -/
theorem c7_vehicle_cache_witness :
    getVehiclesForSession [("s", fxSession "s")] c7cache "s" false 10 (.error ()) =
      ([c7veh], c7cache, false) ∧
    getVehiclesForSession c9store c7cache "s" false 999999 (.error ()) =
      ([c7veh], c7cache, true) ∧
    getVehiclesForSession c9store [] "s" false 0 (.error ()) = ([], [], true) ∧
    getVehiclesForSession [("s", fxSession "s")] c7cache "s" true 10 (.error ()) =
      ([], c7cache, false) := by
  refine ⟨?_, ?_, ?_, ?_⟩
  · exact c7_vehicle_cache.1 [("s", fxSession "s")] c7cache "s" 10 (.error ())
      { vehicles := [c7veh], lastFetch := 0 } (by decide) (by decide)
  · exact c7_vehicle_cache.2.1 c9store c7cache "s" false 999999 (Or.inr (by decide)) (by decide)
  · exact c7_vehicle_cache.2.1 c9store [] "s" false 0 (Or.inr (by decide)) (by decide)
  · exact c7_vehicle_cache.2.2 [("s", fxSession "s")] c7cache "s" true 10 (.error ())
      (Or.inl rfl) (by decide)

/-- C8: `/sse` resolves the owning user session by priority — a truthy
    connection token first (reusing the mapped session when it is live,
    otherwise creating a fresh session), then a truthy `session` query
    parameter when it resolves, otherwise a fresh session — and registers
    the SDK-assigned transport id; the disconnect handler removes only the
    transport-table entry, leaving the session store untouched, so the
    resolved user session still resolves afterwards. -/
theorem c8_sse_resolution :
    (∀ (store : SessionStore) (tmap transports : List (String × String)) (tok : String)
        (sp : Option String) (fsid tsid : String) (now : Nat) (sid : String) (s : Session),
       tok ≠ "" → alookup tmap tok = some sid → alookup store sid = some s →
       (sseConnect store tmap transports (some tok) sp fsid tsid now).1 = s.sessionId) ∧
    (∀ (store : SessionStore) (tmap transports : List (String × String)) (tok : String)
        (sp : Option String) (fsid tsid : String) (now : Nat),
       tok ≠ "" → alookup tmap tok = none →
       (sseConnect store tmap transports (some tok) sp fsid tsid now).1 = fsid) ∧
    (∀ (store : SessionStore) (tmap transports : List (String × String)) (tok : String)
        (sp : Option String) (fsid tsid : String) (now : Nat) (sid : String),
       tok ≠ "" → alookup tmap tok = some sid → alookup store sid = none →
       (sseConnect store tmap transports (some tok) sp fsid tsid now).1 = fsid) ∧
    (∀ (store : SessionStore) (tmap transports : List (String × String)) (sp : String)
        (fsid tsid : String) (now : Nat) (s : Session),
       sp ≠ "" → alookup store sp = some s →
       (sseConnect store tmap transports none (some sp) fsid tsid now).1 = sp) ∧
    (∀ (store : SessionStore) (tmap transports : List (String × String)) (sp : String)
        (fsid tsid : String) (now : Nat),
       sp ≠ "" → alookup store sp = none →
       (sseConnect store tmap transports none (some sp) fsid tsid now).1 = fsid) ∧
    (∀ (store : SessionStore) (tmap transports : List (String × String))
        (fsid tsid : String) (now : Nat),
       (sseConnect store tmap transports none none fsid tsid now).1 = fsid) ∧
    (∀ (store : SessionStore) (tmap transports : List (String × String))
        (tok sp : Option String) (fsid tsid : String) (now : Nat),
       (∀ k s, alookup store k = some s → s.sessionId = k) →
       alookup (sseConnect store tmap transports tok sp fsid tsid now).2.2 tsid =
         some (sseConnect store tmap transports tok sp fsid tsid now).1 ∧
       alookup
         (sseClose (sseConnect store tmap transports tok sp fsid tsid now).2.2
           (sseConnect store tmap transports tok sp fsid tsid now).2.1 tsid).1 tsid = none ∧
       (sseClose (sseConnect store tmap transports tok sp fsid tsid now).2.2
           (sseConnect store tmap transports tok sp fsid tsid now).2.1 tsid).2 =
         (sseConnect store tmap transports tok sp fsid tsid now).2.1 ∧
       ∃ s, alookup (sseConnect store tmap transports tok sp fsid tsid now).2.1
           (sseConnect store tmap transports tok sp fsid tsid now).1 = some s) := by
  have hres : ∀ (store : SessionStore) (tmap : List (String × String))
      (tok sp : Option String) (fsid : String) (now : Nat),
      (∀ k s, alookup store k = some s → s.sessionId = k) →
      ∃ s, alookup (sseResolve store tmap tok sp fsid now).2
          (sseResolve store tmap tok sp fsid now).1 = some s := by
    intro store tmap tok sp fsid now hwf
    unfold sseResolve
    by_cases ht : strTruthy tok
    · rw [if_pos ht]
      unfold getSessionByToken
      cases hm : alookup tmap (tok.getD "") with
      | none =>
          simp only [createSession]
          exact ⟨_, alookup_ainsert_self _ _ _⟩
      | some sid =>
          simp only []
          unfold getSession
          cases hs : alookup store sid with
          | none =>
              simp only [createSession]
              exact ⟨_, alookup_ainsert_self _ _ _⟩
          | some s =>
              simp only []
              have hk : s.sessionId = sid := hwf sid s hs
              rw [hk]
              exact ⟨_, alookup_ainsert_self _ _ _⟩
    · rw [if_neg ht]
      by_cases hp : strTruthy sp
      · rw [if_pos hp]
        unfold getSession
        cases hs : alookup store (sp.getD "") with
        | none =>
            simp only [createSession]
            exact ⟨_, alookup_ainsert_self _ _ _⟩
        | some s =>
            simp only []
            refine ⟨{ s with lastActivity := now }, ?_⟩
            have : (sp.getD "") = (sp.getD "") := rfl
            exact alookup_ainsert_self _ _ _
      · rw [if_neg hp]
        simp only [createSession]
        exact ⟨_, alookup_ainsert_self _ _ _⟩
  refine ⟨?_, ?_, ?_, ?_, ?_, ?_, ?_⟩
  · intro store tmap transports tok sp fsid tsid now sid s htok hm hs
    have ht : strTruthy (some tok) = true := by simp [strTruthy, htok]
    simp only [sseConnect, sseResolve]
    rw [if_pos ht]
    simp only [getSessionByToken, Option.getD_some, hm, getSession, hs]
  · intro store tmap transports tok sp fsid tsid now htok hm
    have ht : strTruthy (some tok) = true := by simp [strTruthy, htok]
    simp only [sseConnect, sseResolve]
    rw [if_pos ht]
    simp only [getSessionByToken, Option.getD_some, hm, createSession]
  · intro store tmap transports tok sp fsid tsid now sid htok hm hs
    have ht : strTruthy (some tok) = true := by simp [strTruthy, htok]
    simp only [sseConnect, sseResolve]
    rw [if_pos ht]
    simp only [getSessionByToken, Option.getD_some, hm, getSession, hs, createSession]
  · intro store tmap transports sp fsid tsid now s hsp hs
    have hp : strTruthy (some sp) = true := by simp [strTruthy, hsp]
    simp only [sseConnect, sseResolve]
    rw [if_neg (by simp [strTruthy] : ¬ (strTruthy none = true))]
    rw [if_pos hp]
    simp only [getSession, Option.getD_some, hs]
  · intro store tmap transports sp fsid tsid now hsp hs
    have hp : strTruthy (some sp) = true := by simp [strTruthy, hsp]
    simp only [sseConnect, sseResolve]
    rw [if_neg (by simp [strTruthy] : ¬ (strTruthy none = true))]
    rw [if_pos hp]
    simp only [getSession, Option.getD_some, hs, createSession]
  · intro store tmap transports fsid tsid now
    simp only [sseConnect, sseResolve]
    rw [if_neg (by simp [strTruthy] : ¬ (strTruthy none = true))]
    rw [if_neg (by simp [strTruthy] : ¬ (strTruthy none = true))]
    simp only [createSession]
  · intro store tmap transports tok sp fsid tsid now hwf
    refine ⟨?_, ?_, rfl, ?_⟩
    · exact alookup_ainsert_self _ _ _
    · exact alookup_aerase_self _ _
    · exact hres store tmap tok sp fsid now hwf

/-- C8 witness: a concrete store with one session `alive` and a connection
    token `tk` mapped to it; the token is reused, the session parameter
    resolves, a bare connect creates the fresh session, and after connect
    plus close the transport entry is gone while the session store is
    untouched and the resolved session still resolves. -/
theorem c8_sse_resolution_witness :
    (sseConnect [("alive", fxSession "alive")] [("tk", "alive")] [] (some "tk") none
        "f1" "t1" 9).1 = "alive" ∧
    (sseConnect [("alive", fxSession "alive")] [("tk", "gone")] [] (some "tk") none
        "f1" "t1" 9).1 = "f1" ∧
    (sseConnect [("alive", fxSession "alive")] [] [] none (some "alive") "f1" "t1" 9).1
        = "alive" ∧
    (sseConnect [("alive", fxSession "alive")] [] [] none none "f1" "t1" 9).1 = "f1" ∧
    alookup (sseConnect [("alive", fxSession "alive")] [("tk", "alive")] []
        (some "tk") none "f1" "t1" 9).2.2 "t1" = some "alive" ∧
    alookup (sseClose (sseConnect [("alive", fxSession "alive")] [("tk", "alive")] []
        (some "tk") none "f1" "t1" 9).2.2
        (sseConnect [("alive", fxSession "alive")] [("tk", "alive")] []
        (some "tk") none "f1" "t1" 9).2.1 "t1").1 "t1" = none ∧
    (∃ s, alookup (sseClose (sseConnect [("alive", fxSession "alive")] [("tk", "alive")] []
        (some "tk") none "f1" "t1" 9).2.2
        (sseConnect [("alive", fxSession "alive")] [("tk", "alive")] []
        (some "tk") none "f1" "t1" 9).2.1 "t1").2
        (sseConnect [("alive", fxSession "alive")] [("tk", "alive")] []
        (some "tk") none "f1" "t1" 9).1 = some s) := by
  have hwf : ∀ k s, alookup [("alive", fxSession "alive")] k = some s → s.sessionId = k := by
    intro k s h
    by_cases hk : "alive" = k
    · subst hk
      have h2 : fxSession "alive" = s := by simpa [alookup] using h
      rw [← h2]
      rfl
    · simp [alookup, hk] at h
  have hcl := c8_sse_resolution.2.2.2.2.2.2 [("alive", fxSession "alive")] [("tk", "alive")]
    [] (some "tk") none "f1" "t1" 9 hwf
  refine ⟨?_, ?_, ?_, ?_, ?_, ?_, ?_⟩
  · exact c8_sse_resolution.1 [("alive", fxSession "alive")] [("tk", "alive")] [] "tk" none
      "f1" "t1" 9 "alive" (fxSession "alive") (by decide) (by decide) rfl
  · exact c8_sse_resolution.2.2.1 [("alive", fxSession "alive")] [("tk", "gone")] [] "tk" none
      "f1" "t1" 9 "gone" (by decide) (by decide) (by decide)
  · exact c8_sse_resolution.2.2.2.1 [("alive", fxSession "alive")] [] [] "alive" "f1" "t1" 9
      (fxSession "alive") (by decide) rfl
  · exact c8_sse_resolution.2.2.2.2.2.1 [("alive", fxSession "alive")] [] [] "f1" "t1" 9
  · have h1 := hcl.1
    have hid : (sseConnect [("alive", fxSession "alive")] [("tk", "alive")] [] (some "tk")
        none "f1" "t1" 9).1 = "alive" :=
      c8_sse_resolution.1 [("alive", fxSession "alive")] [("tk", "alive")] [] "tk" none
        "f1" "t1" 9 "alive" (fxSession "alive") (by decide) (by decide) rfl
    rw [hid] at h1
    exact h1
  · exact hcl.2.1
  · exact hcl.2.2.2

theorem tokenFieldsPreserved_refl (store : SessionStore) :
    tokenFieldsPreserved store store := by
  constructor
  · intro sid s h
    exact ⟨s, h, rfl⟩
  · intro sid h
    exact h

theorem tokenFieldsPreserved_trans (a b c : SessionStore)
    (h1 : tokenFieldsPreserved a b) (h2 : tokenFieldsPreserved b c) :
    tokenFieldsPreserved a c := by
  constructor
  · intro sid s h
    obtain ⟨s', hs', he'⟩ := h1.1 sid s h
    obtain ⟨s'', hs'', he''⟩ := h2.1 sid s' hs'
    refine ⟨s'', hs'', ?_⟩
    rw [he'', he']
  · intro sid h
    exact h2.2 sid (h1.2 sid h)

theorem getSession_preserves (store : SessionStore) (sid : String) (now : Nat) :
    tokenFieldsPreserved store (getSession store sid now).2 := by
  unfold getSession
  cases hl : alookup store sid with
  | none => exact tokenFieldsPreserved_refl store
  | some s =>
      simp only []
      constructor
      · intro sid' s'' h
        by_cases hk : sid' = sid
        · subst hk
          rw [hl] at h
          injection h with he
          refine ⟨{ s with lastActivity := now }, alookup_ainsert_self _ _ _, ?_⟩
          rw [← he]
        · rw [alookup_ainsert_ne _ _ _ _ hk]
          exact ⟨s'', h, rfl⟩
      · intro sid' h
        by_cases hk : sid' = sid
        · subst hk
          rw [hl] at h
          exact Option.noConfusion h
        · rw [alookup_ainsert_ne _ _ _ _ hk]
          exact h

theorem getCredentials_store (store : SessionStore) (sid : String) (now : Nat) :
    (getCredentials store sid now).2 = (getSession store sid now).2 := by
  simp only [getCredentials]
  cases h : (getSession store sid now).1 with
  | none => rfl
  | some s =>
      simp only []
      split <;> rfl

/-- C9: Tesla token refresh is atomic on failure — whenever
    `refreshAccessToken` reports an error (no session, no refresh token, no
    credentials, or a failed upstream exchange), every stored session keeps
    its `accessToken`, `refreshToken` and `tokenExpiration` (indeed every
    field except `lastActivity`, which `getSession` bumps); the error
    messages are those of the source; on a successful exchange the three
    fields are rewritten, and `refreshToken` is overwritten only when the
    upstream response carries a (truthy) new refresh token. -/
theorem c9_refresh_atomic :
    (∀ (store : SessionStore) (sid : String) (now : Nat) (exch : Except String TokenResp)
        (err : String),
       (refreshAccessToken store sid now exch).2 = some err →
       tokenFieldsPreserved store (refreshAccessToken store sid now exch).1) ∧
    (∀ (store : SessionStore) (sid : String) (now : Nat) (exch : Except String TokenResp),
       (alookup store sid = none ∨
        ∃ s, alookup store sid = some s ∧ strTruthy s.refreshToken = false) →
       (refreshAccessToken store sid now exch).2 =
         some "No refresh token available. Please authenticate first.") ∧
    (∀ (store : SessionStore) (sid : String) (now : Nat) (msg : String) (s : Session),
       alookup store sid = some s →
       strTruthy s.refreshToken = true → strTruthy s.clientId = true →
       strTruthy s.clientSecret = true →
       (refreshAccessToken store sid now (.error msg)).2 =
         some ("Failed to refresh token: " ++ msg)) ∧
    (∀ (store : SessionStore) (sid : String) (now : Nat) (resp : TokenResp) (s : Session),
       alookup store sid = some s →
       strTruthy s.refreshToken = true → strTruthy s.clientId = true →
       strTruthy s.clientSecret = true →
       (refreshAccessToken store sid now (.ok resp)).2 = none ∧
       ∃ s', alookup (refreshAccessToken store sid now (.ok resp)).1 sid = some s' ∧
         s'.accessToken = some resp.access_token ∧
         s'.tokenExpiration = some (now + resp.expires_in * 1000) ∧
         s'.refreshToken =
           (if strTruthy resp.refresh_token then resp.refresh_token else s.refreshToken)) := by
  refine ⟨?_, ?_, ?_, ?_⟩
  · intro store sid now exch err herr
    have hp1 := getSession_preserves store sid now
    have hp2 : tokenFieldsPreserved store
        (getCredentials (getSession store sid now).2 sid now).2 := by
      rw [getCredentials_store]
      exact tokenFieldsPreserved_trans _ _ _ hp1 (getSession_preserves _ sid now)
    simp only [refreshAccessToken] at herr ⊢
    cases hs : (getSession store sid now).1 with
    | none => exact hp1
    | some s1 =>
        rw [hs] at herr
        simp only [] at herr ⊢
        by_cases hb : (!strTruthy s1.refreshToken) = true
        · rw [if_pos hb]
          exact hp1
        · rw [if_neg hb] at herr ⊢
          cases hc : (getCredentials (getSession store sid now).2 sid now).1 with
          | none => exact hp2
          | some creds =>
              rw [hc] at herr
              simp only [] at herr ⊢
              cases exch with
              | error msg => exact hp2
              | ok resp =>
                  simp only [] at herr
                  exact Option.noConfusion herr
  · intro store sid now exch hcase
    rcases hcase with hl | ⟨s, hl, hrt⟩
    · simp only [refreshAccessToken, getSession, hl]
    · simp only [refreshAccessToken, getSession, hl]
      rw [if_pos (by simp [hrt])]
  · intro store sid now msg s hl hrt hci hcs
    simp only [refreshAccessToken, getSession, hl, getCredentials, alookup_ainsert_self]
    rw [if_neg (by simp [hrt])]
    rw [if_pos (by simp [hci, hcs])]
  · intro store sid now resp s hl hrt hci hcs
    have hred : refreshAccessToken store sid now (.ok resp) =
        ((updateSession
            (ainsert (ainsert store sid { s with lastActivity := now }) sid
              { s with lastActivity := now }) sid
            { accessToken := some (some resp.access_token)
              tokenExpiration := some (some (now + resp.expires_in * 1000))
              refreshToken :=
                if strTruthy resp.refresh_token then some resp.refresh_token else none }
            now).2, none) := by
      simp only [refreshAccessToken, getSession, hl, getCredentials, alookup_ainsert_self]
      rw [if_neg (by simp [hrt])]
      rw [if_pos (by simp [hci, hcs])]
    constructor
    · rw [hred]
    · rw [hred]
      simp only [updateSession, alookup_ainsert_self]
      refine ⟨_, rfl, rfl, rfl, ?_⟩
      by_cases hn : strTruthy resp.refresh_token
      · simp [applyPatch, hn]
      · simp [applyPatch, hn]

/-- C9 witness: on the authenticated session `c9s`, a failing upstream
    exchange reports the wrapped error and leaves the session's fields
    (except `lastActivity`) untouched; with no refresh token stored the
    no-refresh-token error is reported; a successful exchange whose
    response carries no new refresh token rewrites the access token and
    expiration but keeps the old refresh token. -/
theorem c9_refresh_atomic_witness :
    (refreshAccessToken c9store "s" 5 (.error "boom")).2 =
      some "Failed to refresh token: boom" ∧
    (∃ s', alookup (refreshAccessToken c9store "s" 5 (.error "boom")).1 "s" = some s' ∧
       s' = { c9s with lastActivity := s'.lastActivity }) ∧
    (refreshAccessToken [("s", fxSession "s")] "s" 5
        (.ok { access_token := "newA", expires_in := 3600, refresh_token := some "newR" })).2 =
      some "No refresh token available. Please authenticate first." ∧
    (refreshAccessToken c9store "s" 5
        (.ok { access_token := "newA", expires_in := 3600, refresh_token := none })).2 = none ∧
    (∃ s', alookup (refreshAccessToken c9store "s" 5
        (.ok { access_token := "newA", expires_in := 3600, refresh_token := none })).1 "s"
          = some s' ∧
       s'.accessToken = some "newA" ∧ s'.tokenExpiration = some 3600005 ∧
       s'.refreshToken = some "rt") := by
  have herr := c9_refresh_atomic.2.2.1 c9store "s" 5 "boom" c9s rfl (by decide) (by decide)
    (by decide)
  have hok := c9_refresh_atomic.2.2.2 c9store "s" 5
    { access_token := "newA", expires_in := 3600, refresh_token := none } c9s rfl
    (by decide) (by decide) (by decide)
  refine ⟨herr, ?_, ?_, hok.1, ?_⟩
  · have hp := c9_refresh_atomic.1 c9store "s" 5 (.error "boom")
      "Failed to refresh token: boom" herr
    obtain ⟨s', hs', he⟩ := hp.1 "s" c9s rfl
    exact ⟨s', hs', he⟩
  · exact c9_refresh_atomic.2.1 [("s", fxSession "s")] "s" 5
      (.ok { access_token := "newA", expires_in := 3600, refresh_token := some "newR" })
      (Or.inr ⟨fxSession "s", rfl, by decide⟩)
  · obtain ⟨s', hs', hA, hT, hR⟩ := hok.2
    refine ⟨s', hs', hA, hT, ?_⟩
    rw [hR]
    decide

/-- C10: the refresh-token grant is client-blind — for two token requests
    with `grant_type=refresh_token` presenting the same `refresh_token`, the
    endpoint's result does not depend on the supplied `client_id` (or any
    other field): the recorded `clientId` is never compared.  When the
    refresh token is stored, a fresh bearer token bound to the same
    `userSessionId` with a 1-hour expiry is minted. -/
theorem c10_refresh_client_blind :
    (∀ (st : TokenState) (req1 req2 : TokenReq) (now : Nat) (fa fr : String),
       req1.grant_type = some "refresh_token" →
       req2.grant_type = some "refresh_token" →
       req1.refresh_token = req2.refresh_token →
       oauthToken st req1 now fa fr = oauthToken st req2 now fa fr) ∧
    (∀ (st : TokenState) (req : TokenReq) (now : Nat) (fa fr : String) (rt : String)
        (stored : RefreshTok),
       req.grant_type = some "refresh_token" →
       req.refresh_token = some rt →
       alookup st.refreshToks rt = some stored →
       (oauthToken st req now fa fr).1 =
         .ok { access_token := fa, expires_in := 3600, refresh_token := none } ∧
       alookup (oauthToken st req now fa fr).2.bearerToks fa =
         some { userSessionId := stored.userSessionId, expiresAt := now + 3600 * 1000 }) := by
  have hred : ∀ (st : TokenState) (req : TokenReq) (now : Nat) (fa fr : String),
      req.grant_type = some "refresh_token" →
      oauthToken st req now fa fr =
        (match req.refresh_token.bind (alookup st.refreshToks) with
         | none => (.err 400 "invalid_grant", st)
         | some stored =>
             (.ok { access_token := fa, expires_in := 3600, refresh_token := none },
              { st with bearerToks := ainsert st.bearerToks fa ⟨stored.userSessionId, now + 3600 * 1000⟩ })) := by
    intro st req now fa fr hg
    have hne : ¬ (req.grant_type = some "authorization_code") := by
      rw [hg]
      simp
    unfold oauthToken
    rw [if_neg hne, if_pos hg]
  constructor
  · intro st req1 req2 now fa fr hg1 hg2 hrt
    rw [hred st req1 now fa fr hg1, hred st req2 now fa fr hg2, hrt]
  · intro st req now fa fr rt stored hg hrt hl
    have hb : req.refresh_token.bind (alookup st.refreshToks) = some stored := by
      rw [hrt]
      simpa using hl
    rw [hred st req now fa fr hg, hb]
    exact ⟨rfl, alookup_ainsert_self _ _ _⟩

/-- C10 witness: with refresh token `R1` recorded for client `origCl` and
    user session `u9`, presenting `client_id = "origCl"`, `client_id =
    "other"`, or no `client_id` at all produces identical results: a fresh
    1-hour bearer token bound to `u9`. -/
theorem c10_refresh_client_blind_witness :
    oauthToken c10st (c10req (some "origCl")) 0 "A" "R" =
      oauthToken c10st (c10req (some "other")) 0 "A" "R" ∧
    oauthToken c10st (c10req (some "origCl")) 0 "A" "R" =
      oauthToken c10st (c10req none) 0 "A" "R" ∧
    (oauthToken c10st (c10req (some "other")) 0 "A" "R").1 =
      .ok { access_token := "A", expires_in := 3600, refresh_token := none } ∧
    alookup (oauthToken c10st (c10req (some "other")) 0 "A" "R").2.bearerToks "A" =
      some { userSessionId := "u9", expiresAt := 3600000 } := by
  have h2 := c10_refresh_client_blind.2 c10st (c10req (some "other")) 0 "A" "R" "R1"
    { userSessionId := "u9", clientId := "origCl" } rfl rfl rfl
  refine ⟨?_, ?_, h2.1, h2.2⟩
  · exact c10_refresh_client_blind.1 c10st (c10req (some "origCl")) (c10req (some "other"))
      0 "A" "R" rfl rfl rfl
  · exact c10_refresh_client_blind.1 c10st (c10req (some "origCl")) (c10req none)
      0 "A" "R" rfl rfl rfl
